import Mathlib

/-!
Verification of the `ha-edge` edge proxy (`src/cloud-run/edge_proxy.py`).

The proxy's request handlers are shallowly embedded as pure Lean functions:

* JSON bodies become the inductive type `Json`; Python `dict.get`,
  truthiness, iteration and `len` become `Json.pyGetD`, `Json.truthy`,
  `pyIter` and `pyLen`, which return `none` exactly where the Python
  expression raises (e.g. `.get` on a non-dict).
* The module-level mutable caches become the fields of `ServerState`;
  every handler takes the state and returns the new one explicitly.
* Network effects are explicit: the single upstream HTTP round-trip of a
  handler run is an `UpstreamResult` parameter (what the network would
  answer if the upstream is contacted), and the handler reports in
  `Effects` whether it invoked the upstream, how many webhook
  notifications it fired and how many audit records (`log_request`
  calls) it emitted.  The bodies of `logger.*`, `log_request` and
  `call_webhook` are sinks (no feedback into control flow), so mostly
  only their invocation counts are modelled — except where their
  argument dereferences can raise and fail the request: the SYNC block
  of `log_request` (lines 272-274) is modelled by `logRequestSync`, and
  the `user_id[:8]` log slice and the dict-key hashing inside
  `get_cached_sync` (lines 203-205) are modelled via `pySliceable` and
  `pyHashable`.
* `time.time()` is an explicit `now : Int` parameter; a Python exception
  escaping a handler is modelled as the handler returning `none` (the
  framework's 500 page); the rate limiter decorator is modelled
  separately from the handler bodies it wraps.
-/

/-- JSON values, as produced by `request.get_json()` / `resp.json()`.
Python `None` is `Json.null`; object fields keep their textual keys. -/
inductive Json where
  | null : Json
  | bool : Bool → Json
  | num : Int → Json
  | str : String → Json
  | arr : List Json → Json
  | obj : List (String × Json) → Json

mutual

/-- Decidable equality on `Json` (structural, so `decide` can run it). -/
def Json.decEq : (a b : Json) → Decidable (a = b)
  | .null, .null => isTrue rfl
  | .null, .bool _ => isFalse (by intro h; cases h)
  | .null, .num _ => isFalse (by intro h; cases h)
  | .null, .str _ => isFalse (by intro h; cases h)
  | .null, .arr _ => isFalse (by intro h; cases h)
  | .null, .obj _ => isFalse (by intro h; cases h)
  | .bool _, .null => isFalse (by intro h; cases h)
  | .bool a, .bool b =>
    if h : a = b then isTrue (by rw [h])
    else isFalse (by intro e; injection e with e'; exact h e')
  | .bool _, .num _ => isFalse (by intro h; cases h)
  | .bool _, .str _ => isFalse (by intro h; cases h)
  | .bool _, .arr _ => isFalse (by intro h; cases h)
  | .bool _, .obj _ => isFalse (by intro h; cases h)
  | .num _, .null => isFalse (by intro h; cases h)
  | .num _, .bool _ => isFalse (by intro h; cases h)
  | .num a, .num b =>
    if h : a = b then isTrue (by rw [h])
    else isFalse (by intro e; injection e with e'; exact h e')
  | .num _, .str _ => isFalse (by intro h; cases h)
  | .num _, .arr _ => isFalse (by intro h; cases h)
  | .num _, .obj _ => isFalse (by intro h; cases h)
  | .str _, .null => isFalse (by intro h; cases h)
  | .str _, .bool _ => isFalse (by intro h; cases h)
  | .str _, .num _ => isFalse (by intro h; cases h)
  | .str a, .str b =>
    if h : a = b then isTrue (by rw [h])
    else isFalse (by intro e; injection e with e'; exact h e')
  | .str _, .arr _ => isFalse (by intro h; cases h)
  | .str _, .obj _ => isFalse (by intro h; cases h)
  | .arr _, .null => isFalse (by intro h; cases h)
  | .arr _, .bool _ => isFalse (by intro h; cases h)
  | .arr _, .num _ => isFalse (by intro h; cases h)
  | .arr _, .str _ => isFalse (by intro h; cases h)
  | .arr a, .arr b =>
    match Json.decEqList a b with
    | isTrue h => isTrue (by rw [h])
    | isFalse h => isFalse (by intro e; injection e with e'; exact h e')
  | .arr _, .obj _ => isFalse (by intro h; cases h)
  | .obj _, .null => isFalse (by intro h; cases h)
  | .obj _, .bool _ => isFalse (by intro h; cases h)
  | .obj _, .num _ => isFalse (by intro h; cases h)
  | .obj _, .str _ => isFalse (by intro h; cases h)
  | .obj _, .arr _ => isFalse (by intro h; cases h)
  | .obj a, .obj b =>
    match Json.decEqFields a b with
    | isTrue h => isTrue (by rw [h])
    | isFalse h => isFalse (by intro e; injection e with e'; exact h e')

/-- Decidable equality on lists of `Json`. -/
def Json.decEqList : (a b : List Json) → Decidable (a = b)
  | [], [] => isTrue rfl
  | [], _ :: _ => isFalse (by intro h; cases h)
  | _ :: _, [] => isFalse (by intro h; cases h)
  | x :: xs, y :: ys =>
    match Json.decEq x y, Json.decEqList xs ys with
    | isTrue h1, isTrue h2 => isTrue (by rw [h1, h2])
    | isFalse h1, _ => isFalse (by intro e; injection e with e1 e2; exact h1 e1)
    | _, isFalse h2 => isFalse (by intro e; injection e with e1 e2; exact h2 e2)

/-- Decidable equality on `Json` object field lists. -/
def Json.decEqFields : (a b : List (String × Json)) → Decidable (a = b)
  | [], [] => isTrue rfl
  | [], _ :: _ => isFalse (by intro h; cases h)
  | _ :: _, [] => isFalse (by intro h; cases h)
  | (k, v) :: xs, (k2, v2) :: ys =>
    if h0 : k = k2 then
      match Json.decEq v v2, Json.decEqFields xs ys with
      | isTrue h1, isTrue h2 => isTrue (by rw [h0, h1, h2])
      | isFalse h1, _ =>
        isFalse (by intro e; injection e with e1 e2; exact h1 (congrArg Prod.snd e1))
      | _, isFalse h2 => isFalse (by intro e; injection e with e1 e2; exact h2 e2)
    else isFalse (by intro e; injection e with e1 e2; exact h0 (congrArg Prod.fst e1))

end

instance : DecidableEq Json := Json.decEq

/-- Python truthiness of a JSON value (`if x:`). -/
def Json.truthy : Json → Bool
  | .null => false
  | .bool b => b
  | .num n => decide (n ≠ 0)
  | .str s => decide (s ≠ "")
  | .arr xs => !xs.isEmpty
  | .obj fs => !fs.isEmpty

/-- Association-list lookup, standing in for Python `dict` lookup. -/
def dictGet {K V : Type} [DecidableEq K] (m : List (K × V)) (k : K) : Option V :=
  (m.find? (fun p => p.1 = k)).map (·.2)

/-- Association-list update, standing in for Python `dict` assignment:
the key is bound to the new value and all other keys are untouched. -/
def dictInsert {K V : Type} [DecidableEq K] (m : List (K × V)) (k : K) (v : V) :
    List (K × V) :=
  (k, v) :: m.filter (fun p => ¬(p.1 = k))

/-- Python `d.get(k, default)`: `none` models the `AttributeError` raised
when the receiver is not a dict. -/
def Json.pyGetD : Json → String → Json → Option Json
  | .obj fs, k, d => some ((dictGet fs k).getD d)
  | _, _, _ => none

/-- The dict fields of a JSON value, `none` when it is not an object
(models `.items()` or `.copy()`-then-assign raising on non-dicts). -/
def Json.asObj : Json → Option (List (String × Json))
  | .obj fs => some fs
  | _ => none

/-- The string content of a JSON value, `none` when it is not a string
(models calling a `str` method such as `.endswith` on a non-string). -/
def Json.asStr : Json → Option String
  | .str s => some s
  | _ => none

/-- Python iteration `for d in x`: lists yield elements, dicts yield their
keys, strings yield one-character strings; other values raise. -/
def pyIter : Json → Option (List Json)
  | .arr xs => some xs
  | .obj fs => some (fs.map (fun p => Json.str p.1))
  | .str s => some (s.data.map (fun c => Json.str c.toString))
  | _ => none

/-- Python `len(x)` for sized JSON values; `none` models the `TypeError`
on numbers, booleans and `None`. -/
def pyLen : Json → Option Nat
  | .arr xs => some xs.length
  | .obj fs => some fs.length
  | .str s => some s.length
  | _ => none

/-- Python hashability of a JSON value: lists and dicts are unhashable,
so using one as a `dict` key — even `d.get(key)` on an empty dict —
raises `TypeError`. -/
def pyHashable : Json → Bool
  | .arr _ => false
  | .obj _ => false
  | _ => true

/-- Whether Python slicing `x[:8]` is defined for the value: strings and
lists slice; numbers, booleans, `None` and dicts raise `TypeError`. -/
def pySliceable : Json → Bool
  | .str _ => true
  | .arr _ => true
  | _ => false

/-- The SYNC block of `log_request` (lines 271-274, with the default
`LOG_REQUESTS` enabled): for a truthy response the audit record's device
count evaluates `len(response_data.get("payload", {}).get("devices",
[]))`, raising — and so failing the request with a 500 — when the
response, its `payload` field or the resulting `devices` value is not
shaped accordingly. -/
def logRequestSync (response_data : Json) : Option Unit :=
  if response_data.truthy then do
    let payload ← response_data.pyGetD "payload" (Json.obj [])
    let devices ← payload.pyGetD "devices" (Json.arr [])
    let _ ← pyLen devices
    pure ()
  else pure ()

/-! ## Upstream client (`proxy_to_upstream`, edge_proxy.py lines 318-345) -/

/-- Outcome of the single `requests.post` round-trip inside
`proxy_to_upstream`: either a status code together with the parsed JSON
body, or one of the exception classes the source catches. -/
inductive UpstreamResult where
  | json : Json → Nat → UpstreamResult
  | timeout : UpstreamResult
  | connError : UpstreamResult
  | jsonDecodeError : UpstreamResult
  | otherError : UpstreamResult
deriving DecidableEq

/-- `proxy_to_upstream` (lines 318-345): normalizes the network outcome
into `(response_json, status_code, is_error)`.  A response whose body
parses as JSON is returned with `is_error = False` whatever its status
code; timeouts map to 504, connection errors and JSON decode errors to
502, any other exception to 500, all with `is_error = True`. -/
def proxy_to_upstream : UpstreamResult → Option Json × Nat × Bool
  | .json body status => (some body, status, false)
  | .timeout => (none, 504, true)
  | .connError => (none, 502, true)
  | .jsonDecodeError => (none, 502, true)
  | .otherError => (none, 500, true)

/-- Truthiness of the `response` component (`None` is falsy). -/
def respTruthy : Option Json → Bool
  | some j => j.truthy
  | none => false

/-! ## Cache state (edge_proxy.py lines 79-96 and 630-632) -/

/-- An entry of `sync_cache` / `alexa_discovery_cache`:
`{"response": ..., "expires_at": ...}`. -/
structure SyncEntry where
  response : Json
  expires_at : Int
deriving DecidableEq

/-- An entry of `query_cache`: `{"state": ..., "updated_at": ...}`. -/
structure QueryEntry where
  state : Json
  updated_at : Int
deriving DecidableEq

/-- An entry of `alexa_state_cache`:
`{"properties": ..., "updated_at": ...}`. -/
structure AlexaStateEntry where
  properties : Json
  updated_at : Int
deriving DecidableEq

/-- The four module-level cache dicts of the proxy.  `sync_cache` is
keyed by the request's `agentUserId` value, `query_cache` by the string
device ids appearing as keys of a QUERY response's `devices` object,
`alexa_discovery_cache` by the hex digest derived from the bearer
credential, `alexa_state_cache` by the directive's `endpointId` value. -/
structure ServerState where
  sync_cache : List (Json × SyncEntry)
  query_cache : List (String × QueryEntry)
  alexa_discovery_cache : List (String × SyncEntry)
  alexa_state_cache : List (Json × AlexaStateEntry)
deriving DecidableEq

/-- Observable side effects of one handler run: whether
`proxy_to_upstream` was invoked, how many `call_webhook` calls and how
many `log_request` (audit) calls were made. -/
structure Effects where
  upstreamCalled : Bool
  webhooks : Nat
  audits : Nat
deriving DecidableEq

/-- Result of a handler run: HTTP body and status of the Flask response,
the new module state and the observable effects. -/
structure DispatchOut where
  body : Json
  status : Nat
  state : ServerState
  eff : Effects
deriving DecidableEq

/-- The TTL configuration read from the environment
(`SYNC_CACHE_TTL`, `ALEXA_DISCOVERY_TTL`). -/
structure Config where
  sync_cache_ttl : Int
  alexa_discovery_ttl : Int
deriving DecidableEq

/-! ## Cache functions (edge_proxy.py lines 185-238) -/

/-- `cache_sync_response` (lines 185-197): store a SYNC response for a
user with expiry `now + ttl`. -/
def cache_sync_response (now ttl : Int) (user_id : Json) (response : Json)
    (sc : List (Json × SyncEntry)) : List (Json × SyncEntry) :=
  dictInsert sc user_id ⟨response, now + ttl⟩

/-- `get_cached_sync` (lines 200-207): `some (some r)` is a fresh cache
hit, `some none` a miss or stale entry, and `none` a `TypeError` raised
inside the function — by `sync_cache.get(user_id)` (line 203) when the
identity is unhashable (a list or dict), or by the hit log line's
`user_id[:8]` slice (line 205) when the identity does not slice (a
number, boolean or `None`).  (The source's `if cached and ...`
truthiness test on the entry dict is always true for a present entry,
since stored entries are two-field dicts.) -/
def get_cached_sync (now : Int) (user_id : Json) (sc : List (Json × SyncEntry)) :
    Option (Option Json) :=
  if pyHashable user_id then
    match dictGet sc user_id with
    | some c =>
      if c.expires_at > now then
        if pySliceable user_id then some (some c.response) else none
      else some none
    | none => some none
  else none

/-- `cache_query_states` (lines 210-221): write every `(device_id,
state)` pair of a QUERY response's `devices` object into `query_cache`
with `updated_at = now`, leaving other keys untouched. -/
def cache_query_states (now : Int) (devices : List (String × Json))
    (qc : List (String × QueryEntry)) : List (String × QueryEntry) :=
  devices.foldl (fun m kv => dictInsert m kv.1 ⟨kv.2, now⟩) qc

/-- The two marker assignments of `get_cached_states` (lines 234-236):
`state["_cached"] = True; state["_cached_at"] = cached["updated_at"]`
on a copy of the stored state dict. -/
def markState (fs : List (String × Json)) (updated_at : Int) :
    List (String × Json) :=
  dictInsert (dictInsert fs "_cached" (Json.bool true)) "_cached_at"
    (Json.num updated_at)

/-- One iteration of the `get_cached_states` loop (lines 231-237): a
requested id with a cache entry contributes a marked copy of its stored
state; an id without one is skipped (non-string ids can never hit, since
`query_cache` keys are JSON object keys).  Simplification: an unhashable
requested id (a list or dict), for which `query_cache.get(device_id)`
raises in the source, is modelled as a skip here; the fallback theorems
route through a `get_cached_states ... = some _` hypothesis, which the
simplification leaves intact. -/
def cacheStateStep (qc : List (String × QueryEntry))
    (acc : Option (List (String × Json))) (id : Json) :
    Option (List (String × Json)) := do
  let states ← acc
  match id with
  | Json.str s =>
    match dictGet qc s with
    | some c => do
      let fs ← c.state.asObj
      pure (dictInsert states s (Json.obj (markState fs c.updated_at)))
    | none => pure states
  | _ => pure states

/-- `get_cached_states` (lines 224-238): collect the marked cached states
of the requested ids.  `none` models the raise on a stored state that is
not a dict. -/
def get_cached_states (device_ids : List Json)
    (qc : List (String × QueryEntry)) : Option (List (String × Json)) :=
  device_ids.foldl (cacheStateStep qc) (some [])

/-! ## Rate limiter (edge_proxy.py lines 144-178) -/

/-- One pass through the body of the `rate_limit` decorator for a single
client: prune timestamps with `now - t >= window`, then either reject
(count at or above the ceiling: no recording, retry hint = window) or
append `now` and admit.  Returns (admitted, retry hint, new list). -/
def rate_limit (limit window now : Int) (ts : List Int) :
    Bool × Option Int × List Int :=
  if limit ≤ ((ts.filter (fun t => now - t < window)).length : Int) then
    (false, some window, ts.filter (fun t => now - t < window))
  else
    (true, none, ts.filter (fun t => now - t < window) ++ [now])

/-- A client's successive `rate_limit` passes at the given request
times: the list of admission decisions and the final timestamp list. -/
def rateLimitRun (limit window : Int) (times ts : List Int) :
    List Bool × List Int :=
  match times with
  | [] => ([], ts)
  | t :: rest =>
    ((rate_limit limit window t ts).1
        :: (rateLimitRun limit window rest (rate_limit limit window t ts).2.2).1,
      (rateLimitRun limit window rest (rate_limit limit window t ts).2.2).2)

/-! ## Google Assistant handler (edge_proxy.py lines 352-478) -/

/-- The cache-hit tail of the SYNC branch (lines 386-388): the audit
record is emitted — its SYNC block (`logRequestSync`) dereferencing the
cached response and failing the request for an ill-shaped one — and the
cached response is returned verbatim. -/
def handleSyncHit (resp : Json) (st : ServerState) : Option DispatchOut := do
  let _ ← logRequestSync resp
  some ⟨resp, 200, st, ⟨false, 0, 1⟩⟩

/-- The forward path of the SYNC branch (lines 390-405): contact the
upstream; a truthy non-error response is cached (the `user_id[:8]`
slices in `cache_sync_response`'s log line and in the webhook payload
raise for a non-sliceable identity — the model folds the whole request
into that raise, whereas the source retains the just-written entry), a
webhook fires and the audit record's SYNC block runs on the live
response; error or falsy outcomes surface `upstream_error`. -/
def handleSyncMiss (now ttl : Int) (user_id : Json) (upstream : UpstreamResult)
    (st : ServerState) : Option DispatchOut :=
  let out := proxy_to_upstream upstream
  let response := out.1
  let status := out.2.1
  let is_error := out.2.2
  if ¬is_error ∧ respTruthy response then do
    let respJ ← response
    let _ ← (if pySliceable user_id then some () else none)
    let payload ← respJ.pyGetD "payload" (Json.obj [])
    let devices ← payload.pyGetD "devices" (Json.arr [])
    let _device_count ← pyLen devices
    let _ ← logRequestSync respJ
    some ⟨respJ, 200,
      { st with sync_cache := cache_sync_response now ttl user_id respJ st.sync_cache },
      ⟨true, 1, 1⟩⟩
  else
    some ⟨Json.obj [("error", Json.str "upstream_error")], status, st, ⟨true, 0, 1⟩⟩

/-- The SYNC branch (lines 382-405): probe the cache (a raise inside
`get_cached_sync` fails the request); a truthy fresh hit is served via
`handleSyncHit`; a falsy hit (`if cached:` at line 385), a stale entry
or a miss falls through to the forward path. -/
def handleSync (now ttl : Int) (user_id : Json) (upstream : UpstreamResult)
    (st : ServerState) : Option DispatchOut :=
  match get_cached_sync now user_id st.sync_cache with
  | none => none
  | some (some resp) =>
    if resp.truthy then handleSyncHit resp st
    else handleSyncMiss now ttl user_id upstream st
  | some none => handleSyncMiss now ttl user_id upstream st

/-- Device-id extraction of the QUERY branch (lines 411-413):
`[d.get("id") for d in devices if d.get("id")]` over
`inputs[0].get("payload", {}).get("devices", [])`. -/
def queryDeviceIds (inputsJ : Json) : Option (List Json) := do
  let payload ←
    if inputsJ.truthy then
      match inputsJ with
      | Json.arr (d :: _) => d.pyGetD "payload" (Json.obj [])
      | _ => none
    else pure (Json.obj [])
  let devices ← payload.pyGetD "devices" (Json.arr [])
  let ds ← pyIter devices
  ds.foldr (fun d acc => do
    let ids ← acc
    let i ← d.pyGetD "id" Json.null
    pure (if i.truthy then i :: ids else ids)) (some [])

/-- State extraction from a QUERY response (lines 422):
`response.get("payload", {}).get("devices", {})`. -/
def extractRespDevices (response : Json) : Option Json := do
  let payload ← response.pyGetD "payload" (Json.obj [])
  payload.pyGetD "devices" (Json.obj [])

/-- The offline-fallback tail of the QUERY branch (lines 430-444): serve
the cached states of the requested ids (success status, one webhook, one
audit record) when at least one is cached; otherwise return a bare
`upstream_unavailable` error with the upstream's status code and — as in
the source, which returns before reaching `log_request` — no audit
record. -/
def queryOffline (data : Json) (device_ids : List Json) (status : Nat)
    (st : ServerState) : Option DispatchOut := do
  let cached_states ← get_cached_states device_ids st.query_cache
  if ¬cached_states.isEmpty then do
    let reqId ← data.pyGetD "requestId" Json.null
    pure ⟨Json.obj [("requestId", reqId),
            ("payload", Json.obj [("devices", Json.obj cached_states)])],
          200, st, ⟨true, 1, 1⟩⟩
  else
    pure ⟨Json.obj [("error", Json.str "upstream_unavailable")], status, st,
      ⟨true, 0, 0⟩⟩

/-- The QUERY branch (lines 410-444): upstream first; truthy non-error
responses have their `devices` states bulk-cached and are returned live;
otherwise the cached states of the requested ids are served as an
offline fallback (success status, one webhook) when at least one id is
cached, and a bare `upstream_unavailable` error with the upstream's
status — and no audit record — when none is. -/
def handleQuery (now : Int) (data inputsJ : Json) (upstream : UpstreamResult)
    (st : ServerState) : Option DispatchOut := do
  let device_ids ← queryDeviceIds inputsJ
  let out := proxy_to_upstream upstream
  let response := out.1
  let status := out.2.1
  let is_error := out.2.2
  if ¬is_error ∧ respTruthy response then do
    let respJ ← response
    let resp_devices ← extractRespDevices respJ
    let qc' ←
      if resp_devices.truthy then do
        let fs ← resp_devices.asObj
        pure (cache_query_states now fs st.query_cache)
      else pure st.query_cache
    pure ⟨respJ, 200, { st with query_cache := qc' }, ⟨true, 0, 1⟩⟩
  else
    queryOffline data device_ids status st

/-- The EXECUTE branch (lines 449-463): always forward; webhook on a
truthy response.  The branch never mentions any cache, so it is defined
state-free, producing only body, status and effects. -/
def handleExecuteCore (inputsJ : Json) (upstream : UpstreamResult) :
    Option (Json × Nat × Effects) := do
  let out := proxy_to_upstream upstream
  let response := out.1
  let status := out.2.1
  let is_error := out.2.2
  let webhooks ←
    if respTruthy response then do
      let commands ←
        if inputsJ.truthy then
          match inputsJ with
          | Json.arr (d :: _) => do
            let payload ← d.pyGetD "payload" (Json.obj [])
            payload.pyGetD "commands" (Json.arr [])
          | _ => none
        else pure (Json.arr [])
      let _ ← pyLen commands
      pure 1
    else pure 0
  if is_error then
    pure ⟨Json.obj [("error", Json.str "upstream_error")], status,
      ⟨true, webhooks, 1⟩⟩
  else
    pure ⟨response.getD Json.null, 200, ⟨true, webhooks, 1⟩⟩

/-- The EXECUTE branch, paired with the caller's state unchanged. -/
def handleExecute (inputsJ : Json) (upstream : UpstreamResult) (st : ServerState) :
    Option DispatchOut :=
  (handleExecuteCore inputsJ upstream).map fun r => ⟨r.1, r.2.1, st, r.2.2⟩

/-- The unknown-intent branch (lines 468-478): forward verbatim.  The
branch never mentions any cache, so it is defined state-free. -/
def handleUnknownCore (upstream : UpstreamResult) : Json × Nat × Effects :=
  let out := proxy_to_upstream upstream
  let response := out.1
  let status := out.2.1
  let is_error := out.2.2
  if is_error then
    ⟨Json.obj [("error", Json.str "upstream_error")], status, ⟨true, 0, 1⟩⟩
  else
    ⟨response.getD Json.null, 200, ⟨true, 0, 1⟩⟩

/-- The unknown-intent branch, paired with the state unchanged. -/
def handleUnknown (upstream : UpstreamResult) (st : ServerState) :
    Option DispatchOut :=
  some ⟨(handleUnknownCore upstream).1, (handleUnknownCore upstream).2.1, st,
    (handleUnknownCore upstream).2.2⟩

/-- Intent extraction (line 376):
`inputs[0].get("intent", "unknown") if inputs else "unknown"`. -/
def googleIntent (inputsJ : Json) : Option Json :=
  if inputsJ.truthy then
    match inputsJ with
    | Json.arr (d :: _) => d.pyGetD "intent" (Json.str "unknown")
    | _ => none
  else some (Json.str "unknown")

/-- `google_assistant` (lines 352-478), from intent extraction onward
(i.e. after request parsing and the `validate_json_safe` size check):
classify `inputs[0].intent` and dispatch to the matching branch. -/
def google_assistant (now : Int) (cfg : Config) (data : Json)
    (upstream : UpstreamResult) (st : ServerState) : Option DispatchOut := do
  let inputsJ ← data.pyGetD "inputs" (Json.arr [])
  let intent ← googleIntent inputsJ
  let user_id ← data.pyGetD "agentUserId" (Json.str "default")
  if intent = Json.str "action.devices.SYNC" then
    handleSync now cfg.sync_cache_ttl user_id upstream st
  else if intent = Json.str "action.devices.QUERY" then
    handleQuery now data inputsJ upstream st
  else if intent = Json.str "action.devices.EXECUTE" then
    handleExecute inputsJ upstream st
  else
    handleUnknown upstream st

/-! ## Admin cache clear (edge_proxy.py lines 524-542) -/

/-- `clear_cache` (lines 524-542), after the credential check: report
the sizes of `sync_cache` and `query_cache` and empty those two dicts.
The two Alexa caches are not mentioned by this endpoint. -/
def clear_cache (st : ServerState) : Json × ServerState :=
  (Json.obj [("status", Json.str "cleared"),
     ("sync_cleared", Json.num (st.sync_cache.length : Int)),
     ("query_cleared", Json.num (st.query_cache.length : Int))],
   { st with sync_cache := [], query_cache := [] })

/-! ## Alexa Smart Home handler (edge_proxy.py lines 637-779) -/

/-- The inline cache probe of the Discovery branch (lines 677-683):
return the cached response if present and `expires_at > now`. -/
def alexaDiscoveryHit (now : Int) (userKey : String)
    (dc : List (String × SyncEntry)) : Option Json :=
  match dictGet dc userKey with
  | some c => if c.expires_at > now then some c.response else none
  | none => none

/-- The Discovery branch (lines 671-706): serve a fresh
`alexa_discovery_cache` entry without contacting the upstream; otherwise
forward, cache a truthy non-error response with expiry `now + ttl` (and
webhook), and surface `upstream_error` for error or falsy outcomes.
`userKey` is the sha256-derived digest of the Authorization header,
supplied here as an opaque string. -/
def alexaDiscovery (now ttl : Int) (userKey : String) (upstream : UpstreamResult)
    (st : ServerState) : Option DispatchOut :=
  match alexaDiscoveryHit now userKey st.alexa_discovery_cache with
  | some resp => some ⟨resp, 200, st, ⟨false, 0, 1⟩⟩
  | none =>
    let out := proxy_to_upstream upstream
    let response := out.1
    let status := out.2.1
    let is_error := out.2.2
    if ¬is_error ∧ respTruthy response then do
      let respJ ← response
      let ev ← respJ.pyGetD "event" (Json.obj [])
      let payload ← ev.pyGetD "payload" (Json.obj [])
      let endpoints ← payload.pyGetD "endpoints" (Json.arr [])
      let _ ← pyLen endpoints
      some ⟨respJ, 200,
        { st with alexa_discovery_cache :=
            dictInsert st.alexa_discovery_cache userKey ⟨respJ, now + ttl⟩ },
        ⟨true, 1, 1⟩⟩
    else
      some ⟨Json.obj [("error", Json.str "upstream_error")], status, st, ⟨true, 0, 1⟩⟩

/-- The offline-fallback tail of the ReportState branch (lines 735-761):
synthesize a `StateReport` envelope around the cached properties (one
webhook, one audit record) when the endpoint is cached; otherwise return
a bare `upstream_unavailable` error with the upstream's status code and
— as in the source, which returns before reaching `log_request` — no
audit record. -/
def alexaOffline (header endpoint endpoint_id : Json) (status : Nat)
    (st : ServerState) : Option DispatchOut :=
  match dictGet st.alexa_state_cache endpoint_id with
  | some c => do
    let msgId ← header.pyGetD "messageId" (Json.str "")
    let corr ← header.pyGetD "correlationToken" (Json.str "")
    pure ⟨Json.obj [("event", Json.obj
            [("header", Json.obj
               [("namespace", Json.str "Alexa"), ("name", Json.str "StateReport"),
                ("messageId", msgId), ("correlationToken", corr),
                ("payloadVersion", Json.str "3")]),
             ("endpoint", endpoint), ("payload", Json.obj [])]),
           ("context", Json.obj [("properties", c.properties)])],
          200, st, ⟨true, 1, 1⟩⟩
  | none =>
    some ⟨Json.obj [("error", Json.str "upstream_unavailable")], status, st,
      ⟨true, 0, 0⟩⟩

/-- The ReportState branch (lines 711-761): upstream first; a truthy
non-error response has its truthy `context.properties` cached under the
directive's `endpointId` and is returned live; otherwise a cached entry
for that id is synthesized into a `StateReport` fallback (one webhook),
and a bare `upstream_unavailable` error with the upstream's status — and
no audit record — is returned when there is none. -/
def alexaReportState (now : Int) (directive header : Json)
    (upstream : UpstreamResult) (st : ServerState) : Option DispatchOut := do
  let endpoint ← directive.pyGetD "endpoint" (Json.obj [])
  let endpoint_id ← endpoint.pyGetD "endpointId" (Json.str "unknown")
  let out := proxy_to_upstream upstream
  let response := out.1
  let status := out.2.1
  let is_error := out.2.2
  if ¬is_error ∧ respTruthy response then do
    let respJ ← response
    let context ← respJ.pyGetD "context" (Json.obj [])
    let properties ← context.pyGetD "properties" (Json.arr [])
    let asc' :=
      if properties.truthy then
        dictInsert st.alexa_state_cache endpoint_id ⟨properties, now⟩
      else st.alexa_state_cache
    pure ⟨respJ, 200, { st with alexa_state_cache := asc' }, ⟨true, 0, 1⟩⟩
  else
    alexaOffline header endpoint endpoint_id status st

/-- The catch-all directive branch (lines 766-779): always forward;
webhook when the response is truthy and the namespace string ends in
"Controller" (raising, hence `none`, on a non-string namespace).  The
branch never mentions any cache, so it is defined state-free. -/
def alexaOtherCore (ns : Json) (upstream : UpstreamResult) :
    Option (Json × Nat × Effects) := do
  let out := proxy_to_upstream upstream
  let response := out.1
  let status := out.2.1
  let is_error := out.2.2
  let webhooks ←
    if respTruthy response then do
      let s ← ns.asStr
      pure (if s.endsWith "Controller" then 1 else 0)
    else pure 0
  if is_error then
    pure ⟨Json.obj [("error", Json.str "upstream_error")], status,
      ⟨true, webhooks, 1⟩⟩
  else
    pure ⟨response.getD Json.null, 200, ⟨true, webhooks, 1⟩⟩

/-- The catch-all directive branch, paired with the state unchanged. -/
def alexaOther (ns : Json) (upstream : UpstreamResult) (st : ServerState) :
    Option DispatchOut :=
  (alexaOtherCore ns upstream).map fun r => ⟨r.1, r.2.1, st, r.2.2⟩

/-- `alexa_smart_home` (lines 637-779), from directive extraction onward
(after request parsing and the size check): classify
`directive.header.namespace` / `name` and dispatch. -/
def alexa_smart_home (now : Int) (cfg : Config) (userKey : String) (data : Json)
    (upstream : UpstreamResult) (st : ServerState) : Option DispatchOut := do
  let directive ← data.pyGetD "directive" (Json.obj [])
  let header ← directive.pyGetD "header" (Json.obj [])
  let ns ← header.pyGetD "namespace" (Json.str "unknown")
  let nm ← header.pyGetD "name" (Json.str "unknown")
  if ns = Json.str "Alexa.Discovery" ∧ nm = Json.str "Discover" then
    alexaDiscovery now cfg.alexa_discovery_ttl userKey upstream st
  else if ns = Json.str "Alexa" ∧ nm = Json.str "ReportState" then
    alexaReportState now directive header upstream st
  else
    alexaOther ns upstream st

/-- The caller-visible part of a handler result: body, status, effects. -/
def stripOut (o : DispatchOut) : Json × Nat × Effects := (o.body, o.status, o.eff)

/-! ## Concrete fixtures for witnesses and counterexamples -/

def cfgW : Config := ⟨300, 300⟩

def stEmpty : ServerState := ⟨[], [], [], []⟩

/-- A well-shaped stored SYNC response (survives the audit record's
SYNC-block dereference). -/
def respW : Json :=
  Json.obj [("payload", Json.obj [("devices",
    Json.arr [Json.obj [("id", Json.str "D1")]])])]

/-- A state with one entry in each of the four caches. -/
def stCached : ServerState :=
  ⟨[(Json.str "u1", ⟨respW, 500⟩)],
   [("D1", ⟨Json.obj [("on", Json.bool true)], 10⟩)],
   [("ukey", ⟨Json.str "ALEXA", 900⟩)],
   [(Json.str "E1", ⟨Json.arr [Json.str "p"], 10⟩)]⟩

/-- A state whose only entry is a fresh SYNC cache entry holding a
truthy but ill-shaped (non-dict) stored response. -/
def stBadSync : ServerState :=
  ⟨[(Json.str "u1", ⟨Json.str "G", 500⟩)], [], [], []⟩

def queryReqD1 : Json :=
  Json.obj [("requestId", Json.str "r1"),
    ("inputs", Json.arr [Json.obj [("intent", Json.str "action.devices.QUERY"),
      ("payload", Json.obj [("devices",
        Json.arr [Json.obj [("id", Json.str "D1")]])])]])]

def queryReqD2 : Json :=
  Json.obj [("requestId", Json.str "r2"),
    ("inputs", Json.arr [Json.obj [("intent", Json.str "action.devices.QUERY"),
      ("payload", Json.obj [("devices",
        Json.arr [Json.obj [("id", Json.str "D2")]])])]])]

def syncReq : Json :=
  Json.obj [("agentUserId", Json.str "u1"),
    ("inputs", Json.arr [Json.obj [("intent", Json.str "action.devices.SYNC")]])]

def discoverReq : Json :=
  Json.obj [("directive", Json.obj [("header",
    Json.obj [("namespace", Json.str "Alexa.Discovery"),
      ("name", Json.str "Discover")])])]

def reportReq : Json :=
  Json.obj [("directive", Json.obj
    [("header", Json.obj
       [("namespace", Json.str "Alexa"), ("name", Json.str "ReportState"),
        ("messageId", Json.str "m1"), ("correlationToken", Json.str "c1")]),
     ("endpoint", Json.obj [("endpointId", Json.str "E1")])])]

/-! ## Dictionary lemmas -/

theorem dictGet_insert_self {K V : Type} [DecidableEq K] (m : List (K × V))
    (k : K) (v : V) : dictGet (dictInsert m k v) k = some v := by
  simp [dictGet, dictInsert, List.find?]

theorem find?_filter_ne {K V : Type} [DecidableEq K] (m : List (K × V))
    (k k' : K) (h : k' ≠ k) :
    (m.filter (fun p => ¬(p.1 = k))).find? (fun p => p.1 = k')
      = m.find? (fun p => p.1 = k') := by
  induction m with
  | nil => rfl
  | cons a rest ih =>
    by_cases ha : a.1 = k
    · have hne : ¬(a.1 = k') := fun e => h (e.symm.trans ha)
      rw [List.filter_cons_of_neg (by simpa using ha), ih,
        List.find?_cons_of_neg _ (by simpa using hne)]
    · by_cases ha' : a.1 = k'
      · rw [List.filter_cons_of_pos (by simpa using ha),
          List.find?_cons_of_pos _ (by simpa using ha'),
          List.find?_cons_of_pos _ (by simpa using ha')]
      · rw [List.filter_cons_of_pos (by simpa using ha),
          List.find?_cons_of_neg _ (by simpa using ha'),
          List.find?_cons_of_neg _ (by simpa using ha'), ih]

theorem dictGet_insert_ne {K V : Type} [DecidableEq K] (m : List (K × V))
    (k k' : K) (v : V) (h : k' ≠ k) :
    dictGet (dictInsert m k v) k' = dictGet m k' := by
  have hne : ¬(k = k') := fun e => h e.symm
  unfold dictGet dictInsert
  rw [List.find?_cons_of_neg _ (by simpa using hne), find?_filter_ne m k k' h]

/-! ## Staleness-marker lemmas (`get_cached_states`) -/

theorem markState_cached (fs : List (String × Json)) (t : Int) :
    dictGet (markState fs t) "_cached" = some (Json.bool true) := by
  unfold markState
  rw [dictGet_insert_ne _ _ _ _ (by decide), dictGet_insert_self]

theorem markState_cached_at (fs : List (String × Json)) (t : Int) :
    dictGet (markState fs t) "_cached_at" = some (Json.num t) := by
  unfold markState
  rw [dictGet_insert_self]

theorem markState_preserves (fs : List (String × Json)) (t : Int) (key : String)
    (h1 : key ≠ "_cached") (h2 : key ≠ "_cached_at") :
    dictGet (markState fs t) key = dictGet fs key := by
  unfold markState
  rw [dictGet_insert_ne _ _ _ _ h2, dictGet_insert_ne _ _ _ _ h1]

theorem Json.asObj_some {j : Json} {fs : List (String × Json)}
    (h : j.asObj = some fs) : j = Json.obj fs := by
  cases j
  case obj fs2 => injection h with h2; rw [h2]
  all_goals exact Option.noConfusion h

theorem foldl_cacheStateStep_none (qc : List (String × QueryEntry)) :
    ∀ ids : List Json, ids.foldl (cacheStateStep qc) none = none := by
  intro ids
  induction ids with
  | nil => rfl
  | cons id rest ih =>
    rw [List.foldl_cons]
    have hstep : cacheStateStep qc none id = none := rfl
    rw [hstep, ih]

theorem cacheStateStep_hit (qc : List (String × QueryEntry))
    (acc : List (String × Json)) (s : String) (c : QueryEntry)
    (fs : List (String × Json)) (hc : dictGet qc s = some c)
    (hobj : c.state = Json.obj fs) :
    cacheStateStep qc (some acc) (Json.str s)
      = some (dictInsert acc s (Json.obj (markState fs c.updated_at))) := by
  simp [cacheStateStep, hc, hobj, Json.asObj]

theorem cacheStateStep_preserve (qc : List (String × QueryEntry))
    (acc acc' : List (String × Json)) (id : Json) (s : String)
    (h : cacheStateStep qc (some acc) id = some acc')
    (hne : id ≠ Json.str s) : dictGet acc' s = dictGet acc s := by
  cases id with
  | str s2 =>
    have hs2 : s2 ≠ s := fun e => hne (by rw [e])
    cases hq : dictGet qc s2 with
    | none =>
      simp [cacheStateStep, hq] at h
      rw [← h]
    | some c2 =>
      cases hobj : c2.state.asObj with
      | none => simp [cacheStateStep, hq, hobj] at h
      | some fs2 =>
        rw [cacheStateStep_hit qc acc s2 c2 fs2 hq (Json.asObj_some hobj)] at h
        injection h with h
        rw [← h, dictGet_insert_ne _ _ _ _ (fun e => hs2 e.symm)]
  | null => simp [cacheStateStep] at h; rw [← h]
  | bool b => simp [cacheStateStep] at h; rw [← h]
  | num n => simp [cacheStateStep] at h; rw [← h]
  | arr xs => simp [cacheStateStep] at h; rw [← h]
  | obj fs => simp [cacheStateStep] at h; rw [← h]

theorem get_cached_states_mem_aux (qc : List (String × QueryEntry)) :
    ∀ (ids : List Json) (acc states : List (String × Json)),
    ids.foldl (cacheStateStep qc) (some acc) = some states →
    ∀ (s : String) (c : QueryEntry) (fs : List (String × Json)),
    dictGet qc s = some c → c.state = Json.obj fs →
    (dictGet acc s = some (Json.obj (markState fs c.updated_at)) ∨ Json.str s ∈ ids) →
    dictGet states s = some (Json.obj (markState fs c.updated_at)) := by
  intro ids
  induction ids with
  | nil =>
    intro acc states hfold s c fs hc hobj hmem
    simp only [List.foldl_nil, Option.some.injEq] at hfold
    subst hfold
    rcases hmem with h | h
    · exact h
    · cases h
  | cons id rest ih =>
    intro acc states hfold s c fs hc hobj hmem
    rw [List.foldl_cons] at hfold
    cases hstep : cacheStateStep qc (some acc) id with
    | none =>
      rw [hstep, foldl_cacheStateStep_none] at hfold
      cases hfold
    | some acc' =>
      rw [hstep] at hfold
      apply ih acc' states hfold s c fs hc hobj
      by_cases hid : id = Json.str s
      · left
        subst hid
        rw [cacheStateStep_hit qc acc s c fs hc hobj] at hstep
        injection hstep with hstep
        rw [← hstep, dictGet_insert_self]
      · rcases hmem with hacc | hmem
        · left
          rw [cacheStateStep_preserve qc acc acc' id s hstep hid]
          exact hacc
        · rcases List.mem_cons.mp hmem with he | hr
          · exact absurd he.symm hid
          · right; exact hr

/-- Completeness of the offline-fallback lookup: every requested id with
a stored (dict-valued) state appears in the result, carrying that stored
state with the two markers — for every `updated_at`, i.e. with no
freshness condition. -/
theorem get_cached_states_mem (qc : List (String × QueryEntry))
    (ids : List Json) (states : List (String × Json))
    (hfold : get_cached_states ids qc = some states)
    (s : String) (c : QueryEntry) (fs : List (String × Json))
    (hc : dictGet qc s = some c) (hobj : c.state = Json.obj fs)
    (hmem : Json.str s ∈ ids) :
    dictGet states s = some (Json.obj (markState fs c.updated_at)) :=
  get_cached_states_mem_aux qc ids [] states hfold s c fs hc hobj (Or.inr hmem)

theorem cacheStateStep_sound (qc : List (String × QueryEntry))
    (acc acc' : List (String × Json)) (id : Json)
    (h : cacheStateStep qc (some acc) id = some acc') (k : String) (v : Json)
    (hget : dictGet acc' k = some v) :
    dictGet acc k = some v ∨
    ∃ c fs, dictGet qc k = some c ∧ c.state = Json.obj fs ∧
      v = Json.obj (markState fs c.updated_at) := by
  by_cases hid : id = Json.str k
  · subst hid
    cases hq : dictGet qc k with
    | none =>
      simp [cacheStateStep, hq] at h
      rw [← h] at hget
      exact Or.inl hget
    | some c =>
      cases hobj : c.state.asObj with
      | none => simp [cacheStateStep, hq, hobj] at h
      | some fs =>
        rw [cacheStateStep_hit qc acc k c fs hq (Json.asObj_some hobj)] at h
        injection h with h
        rw [← h, dictGet_insert_self] at hget
        injection hget with hget
        refine Or.inr ⟨c, fs, rfl, Json.asObj_some hobj, ?_⟩
        exact hget.symm
  · rw [cacheStateStep_preserve qc acc acc' id k h hid] at hget
    exact Or.inl hget

theorem get_cached_states_sound_aux (qc : List (String × QueryEntry)) :
    ∀ (ids : List Json) (acc states : List (String × Json)),
    ids.foldl (cacheStateStep qc) (some acc) = some states →
    ∀ (k : String) (v : Json), dictGet states k = some v →
    dictGet acc k = some v ∨
    ∃ c fs, dictGet qc k = some c ∧ c.state = Json.obj fs ∧
      v = Json.obj (markState fs c.updated_at) := by
  intro ids
  induction ids with
  | nil =>
    intro acc states hfold k v hget
    simp only [List.foldl_nil, Option.some.injEq] at hfold
    subst hfold
    exact Or.inl hget
  | cons id rest ih =>
    intro acc states hfold k v hget
    rw [List.foldl_cons] at hfold
    cases hstep : cacheStateStep qc (some acc) id with
    | none =>
      rw [hstep, foldl_cacheStateStep_none] at hfold
      cases hfold
    | some acc' =>
      rw [hstep] at hfold
      rcases ih acc' states hfold k v hget with hacc | hex
      · exact cacheStateStep_sound qc acc acc' id hstep k v hacc
      · exact Or.inr hex

/-- Soundness of the offline-fallback lookup: every entry of the result
is the stored state of that id, unchanged except for the two added
markers. -/
theorem get_cached_states_sound (qc : List (String × QueryEntry))
    (ids : List Json) (states : List (String × Json))
    (hfold : get_cached_states ids qc = some states)
    (k : String) (v : Json) (hget : dictGet states k = some v) :
    ∃ c fs, dictGet qc k = some c ∧ c.state = Json.obj fs ∧
      v = Json.obj (markState fs c.updated_at) := by
  rcases get_cached_states_sound_aux qc ids [] states hfold k v hget with h | h
  · cases h
  · exact h

/-! ## Per-branch effect and frame lemmas -/

theorem handleSyncHit_spec (resp : Json) (st : ServerState) (out : DispatchOut)
    (h : handleSyncHit resp st = some out) :
    out = ⟨resp, 200, st, ⟨false, 0, 1⟩⟩ := by
  unfold handleSyncHit at h
  obtain ⟨u1, hu1, h⟩ := Option.bind_eq_some.mp h
  injection h with h
  exact h.symm

theorem handleSyncMiss_spec (now ttl : Int) (u : Json) (upstream : UpstreamResult)
    (st : ServerState) (out : DispatchOut)
    (h : handleSyncMiss now ttl u upstream st = some out) :
    out.state.query_cache = st.query_cache ∧
    out.state.alexa_discovery_cache = st.alexa_discovery_cache ∧
    out.state.alexa_state_cache = st.alexa_state_cache ∧
    out.eff.audits = 1 ∧ out.eff.webhooks ≤ 1 := by
  unfold handleSyncMiss at h
  cases upstream with
  | json b s =>
    simp only [proxy_to_upstream, respTruthy, Bool.false_eq_true, not_false_eq_true,
      true_and] at h
    by_cases hb : b.truthy = true
    · rw [if_pos hb] at h
      simp only [bind, Option.some_bind, Option.bind_eq_some, Option.pure_def,
        Option.some.injEq] at h
      obtain ⟨u1, hu1, p, hp, d, hd, n, hn, u2, hu2, h⟩ := h
      subst h
      exact ⟨rfl, rfl, rfl, rfl, Nat.le_refl 1⟩
    · rw [if_neg hb] at h
      injection h with h
      subst h
      exact ⟨rfl, rfl, rfl, rfl, Nat.zero_le 1⟩
  | timeout =>
    simp only [proxy_to_upstream, respTruthy, Bool.true_eq_false, not_true_eq_false,
      false_and, if_false] at h
    injection h with h
    subst h
    exact ⟨rfl, rfl, rfl, rfl, Nat.zero_le 1⟩
  | connError =>
    simp only [proxy_to_upstream, respTruthy, Bool.true_eq_false, not_true_eq_false,
      false_and, if_false] at h
    injection h with h
    subst h
    exact ⟨rfl, rfl, rfl, rfl, Nat.zero_le 1⟩
  | jsonDecodeError =>
    simp only [proxy_to_upstream, respTruthy, Bool.true_eq_false, not_true_eq_false,
      false_and, if_false] at h
    injection h with h
    subst h
    exact ⟨rfl, rfl, rfl, rfl, Nat.zero_le 1⟩
  | otherError =>
    simp only [proxy_to_upstream, respTruthy, Bool.true_eq_false, not_true_eq_false,
      false_and, if_false] at h
    injection h with h
    subst h
    exact ⟨rfl, rfl, rfl, rfl, Nat.zero_le 1⟩

theorem handleSync_spec (now ttl : Int) (u : Json) (upstream : UpstreamResult)
    (st : ServerState) (out : DispatchOut)
    (h : handleSync now ttl u upstream st = some out) :
    out.state.query_cache = st.query_cache ∧
    out.state.alexa_discovery_cache = st.alexa_discovery_cache ∧
    out.state.alexa_state_cache = st.alexa_state_cache ∧
    out.eff.audits = 1 ∧ out.eff.webhooks ≤ 1 := by
  unfold handleSync at h
  cases hg : get_cached_sync now u st.sync_cache with
  | none =>
    rw [hg] at h
    exact Option.noConfusion h
  | some ohit =>
    rw [hg] at h
    cases ohit with
    | some resp =>
      have h' : (if resp.truthy = true then handleSyncHit resp st
          else handleSyncMiss now ttl u upstream st) = some out := h
      by_cases ht : resp.truthy = true
      · rw [if_pos ht] at h'
        rw [handleSyncHit_spec resp st out h']
        exact ⟨rfl, rfl, rfl, rfl, Nat.zero_le 1⟩
      · rw [if_neg ht] at h'
        exact handleSyncMiss_spec now ttl u upstream st out h'
    | none =>
      exact handleSyncMiss_spec now ttl u upstream st out h

theorem queryOffline_spec (data : Json) (ids : List Json) (status : Nat)
    (st : ServerState) (out : DispatchOut)
    (h : queryOffline data ids status st = some out) :
    out.state = st ∧
    (out.eff.audits = 1 ∨ (out.eff.audits = 0 ∧
      out.body = Json.obj [("error", Json.str "upstream_unavailable")])) ∧
    out.eff.webhooks ≤ 1 := by
  unfold queryOffline at h
  simp only [bind, Option.bind_eq_some] at h
  obtain ⟨states, hstates, h⟩ := h
  by_cases he : states.isEmpty = true
  · rw [if_neg (fun hc => hc he)] at h
    simp only [Option.pure_def, Option.some.injEq] at h
    subst h
    exact ⟨rfl, Or.inr ⟨rfl, rfl⟩, Nat.zero_le 1⟩
  · rw [if_pos he] at h
    simp only [bind, Option.bind_eq_some, Option.pure_def, Option.some.injEq] at h
    obtain ⟨rid, hrid, h⟩ := h
    subst h
    exact ⟨rfl, Or.inl rfl, Nat.le_refl 1⟩

theorem handleQuery_spec (now : Int) (data inputsJ : Json)
    (upstream : UpstreamResult) (st : ServerState) (out : DispatchOut)
    (h : handleQuery now data inputsJ upstream st = some out) :
    out.state.sync_cache = st.sync_cache ∧
    out.state.alexa_discovery_cache = st.alexa_discovery_cache ∧
    out.state.alexa_state_cache = st.alexa_state_cache ∧
    (out.state.query_cache = st.query_cache ∨
      ∃ b s dv fs, upstream = UpstreamResult.json b s ∧
        extractRespDevices b = some dv ∧ dv.truthy = true ∧ dv.asObj = some fs ∧
        out.state.query_cache = cache_query_states now fs st.query_cache) ∧
    (out.eff.audits = 1 ∨ (out.eff.audits = 0 ∧
      out.body = Json.obj [("error", Json.str "upstream_unavailable")])) ∧
    out.eff.webhooks ≤ 1 := by
  unfold handleQuery at h
  simp only [bind] at h
  rw [Option.bind_eq_some] at h
  obtain ⟨ids, hids, h⟩ := h
  cases upstream with
  | json b s =>
    simp only [proxy_to_upstream, respTruthy, Bool.false_eq_true, not_false_eq_true,
      true_and] at h
    by_cases hb : b.truthy = true
    · rw [if_pos hb] at h
      simp only [bind, Option.some_bind] at h
      rw [Option.bind_eq_some] at h
      obtain ⟨dv, hdv, h⟩ := h
      by_cases ht : dv.truthy = true
      · rw [if_pos ht, Option.bind_eq_some] at h
        obtain ⟨fs, hfs, h⟩ := h
        simp only [Option.pure_def, Option.some_bind, Option.some.injEq] at h
        subst h
        exact ⟨rfl, rfl, rfl, Or.inr ⟨b, s, dv, fs, rfl, hdv, ht, hfs, rfl⟩,
          Or.inl rfl, Nat.zero_le 1⟩
      · rw [if_neg ht] at h
        simp only [Option.pure_def, Option.some_bind, Option.some.injEq] at h
        subst h
        exact ⟨rfl, rfl, rfl, Or.inl rfl, Or.inl rfl, Nat.zero_le 1⟩
    · rw [if_neg hb] at h
      obtain ⟨hst, haud, hweb⟩ := queryOffline_spec data ids s st out h
      rw [hst]
      exact ⟨rfl, rfl, rfl, Or.inl rfl, haud, hweb⟩
  | timeout =>
    simp only [proxy_to_upstream, respTruthy, Bool.true_eq_false, not_true_eq_false,
      false_and, if_false] at h
    obtain ⟨hst, haud, hweb⟩ := queryOffline_spec data ids 504 st out h
    rw [hst]
    exact ⟨rfl, rfl, rfl, Or.inl rfl, haud, hweb⟩
  | connError =>
    simp only [proxy_to_upstream, respTruthy, Bool.true_eq_false, not_true_eq_false,
      false_and, if_false] at h
    obtain ⟨hst, haud, hweb⟩ := queryOffline_spec data ids 502 st out h
    rw [hst]
    exact ⟨rfl, rfl, rfl, Or.inl rfl, haud, hweb⟩
  | jsonDecodeError =>
    simp only [proxy_to_upstream, respTruthy, Bool.true_eq_false, not_true_eq_false,
      false_and, if_false] at h
    obtain ⟨hst, haud, hweb⟩ := queryOffline_spec data ids 502 st out h
    rw [hst]
    exact ⟨rfl, rfl, rfl, Or.inl rfl, haud, hweb⟩
  | otherError =>
    simp only [proxy_to_upstream, respTruthy, Bool.true_eq_false, not_true_eq_false,
      false_and, if_false] at h
    obtain ⟨hst, haud, hweb⟩ := queryOffline_spec data ids 500 st out h
    rw [hst]
    exact ⟨rfl, rfl, rfl, Or.inl rfl, haud, hweb⟩

theorem handleExecuteCore_eff (inputsJ : Json) (upstream : UpstreamResult)
    (r : Json × Nat × Effects) (h : handleExecuteCore inputsJ upstream = some r) :
    r.2.2.audits = 1 ∧ r.2.2.webhooks ≤ 1 := by
  unfold handleExecuteCore at h
  cases upstream with
  | json b s =>
    simp only [bind, proxy_to_upstream, respTruthy, Option.pure_def, Option.some_bind,
      Bool.false_eq_true, if_false, Option.some.injEq] at h
    by_cases hb : b.truthy = true
    · rw [if_pos hb] at h
      by_cases hi : inputsJ.truthy = true
      · rw [if_pos hi] at h
        cases inputsJ with
        | arr xs =>
          cases xs with
          | nil => exact Option.noConfusion h
          | cons d ds =>
            obtain ⟨p, hp, h⟩ := Option.bind_eq_some.mp h
            obtain ⟨cs, hcs, h⟩ := Option.bind_eq_some.mp h
            obtain ⟨n, hn, h⟩ := Option.bind_eq_some.mp h
            injection h with h
            subst h
            exact ⟨rfl, Nat.le_refl 1⟩
        | null => exact Option.noConfusion h
        | bool b2 => exact Option.noConfusion h
        | num n2 => exact Option.noConfusion h
        | str s2 => exact Option.noConfusion h
        | obj fs2 => exact Option.noConfusion h
      · rw [if_neg hi] at h
        simp only [bind, Option.pure_def, Option.some_bind, pyLen,
          Option.some.injEq] at h
        subst h
        exact ⟨rfl, Nat.le_refl 1⟩
    · rw [if_neg hb] at h
      injection h with h
      subst h
      exact ⟨rfl, Nat.zero_le 1⟩
  | timeout =>
    simp only [bind, proxy_to_upstream, respTruthy, Bool.false_eq_true, if_false,
      Option.pure_def, Option.some_bind, if_true, Option.some.injEq] at h
    subst h
    exact ⟨rfl, Nat.zero_le 1⟩
  | connError =>
    simp only [bind, proxy_to_upstream, respTruthy, Bool.false_eq_true, if_false,
      Option.pure_def, Option.some_bind, if_true, Option.some.injEq] at h
    subst h
    exact ⟨rfl, Nat.zero_le 1⟩
  | jsonDecodeError =>
    simp only [bind, proxy_to_upstream, respTruthy, Bool.false_eq_true, if_false,
      Option.pure_def, Option.some_bind, if_true, Option.some.injEq] at h
    subst h
    exact ⟨rfl, Nat.zero_le 1⟩
  | otherError =>
    simp only [bind, proxy_to_upstream, respTruthy, Bool.false_eq_true, if_false,
      Option.pure_def, Option.some_bind, if_true, Option.some.injEq] at h
    subst h
    exact ⟨rfl, Nat.zero_le 1⟩

theorem handleExecute_spec (inputsJ : Json) (upstream : UpstreamResult)
    (st : ServerState) (out : DispatchOut)
    (h : handleExecute inputsJ upstream st = some out) :
    out.state = st ∧ out.eff.audits = 1 ∧ out.eff.webhooks ≤ 1 := by
  unfold handleExecute at h
  rw [Option.map_eq_some'] at h
  obtain ⟨r, hr, h⟩ := h
  obtain ⟨h1, h2⟩ := handleExecuteCore_eff inputsJ upstream r hr
  subst h
  exact ⟨rfl, h1, h2⟩

theorem handleUnknownCore_eff (upstream : UpstreamResult) :
    (handleUnknownCore upstream).2.2.audits = 1 ∧
    (handleUnknownCore upstream).2.2.webhooks = 0 := by
  cases upstream <;> exact ⟨rfl, rfl⟩

theorem handleUnknown_spec (upstream : UpstreamResult) (st : ServerState)
    (out : DispatchOut) (h : handleUnknown upstream st = some out) :
    out.state = st ∧ out.eff.audits = 1 ∧ out.eff.webhooks = 0 := by
  unfold handleUnknown at h
  injection h with h
  subst h
  exact ⟨rfl, (handleUnknownCore_eff upstream).1, (handleUnknownCore_eff upstream).2⟩

theorem alexaOtherCore_eff (ns : Json) (upstream : UpstreamResult)
    (r : Json × Nat × Effects) (h : alexaOtherCore ns upstream = some r) :
    r.2.2.audits = 1 ∧ r.2.2.webhooks ≤ 1 := by
  unfold alexaOtherCore at h
  cases upstream with
  | json b s =>
    simp only [bind, proxy_to_upstream, respTruthy, Option.pure_def, Option.some_bind,
      Bool.false_eq_true, if_false, Option.some.injEq] at h
    by_cases hb : b.truthy = true
    · rw [if_pos hb] at h
      obtain ⟨s2, hs2, h⟩ := Option.bind_eq_some.mp h
      injection h with h
      subst h
      refine ⟨rfl, ?_⟩
      by_cases hc : s2.endsWith "Controller" = true
      · rw [if_pos hc]
      · rw [if_neg hc]
        exact Nat.zero_le 1
    · rw [if_neg hb] at h
      injection h with h
      subst h
      exact ⟨rfl, Nat.zero_le 1⟩
  | timeout =>
    simp only [bind, proxy_to_upstream, respTruthy, Bool.false_eq_true, if_false,
      Option.pure_def, Option.some_bind, if_true, Option.some.injEq] at h
    subst h
    exact ⟨rfl, Nat.zero_le 1⟩
  | connError =>
    simp only [bind, proxy_to_upstream, respTruthy, Bool.false_eq_true, if_false,
      Option.pure_def, Option.some_bind, if_true, Option.some.injEq] at h
    subst h
    exact ⟨rfl, Nat.zero_le 1⟩
  | jsonDecodeError =>
    simp only [bind, proxy_to_upstream, respTruthy, Bool.false_eq_true, if_false,
      Option.pure_def, Option.some_bind, if_true, Option.some.injEq] at h
    subst h
    exact ⟨rfl, Nat.zero_le 1⟩
  | otherError =>
    simp only [bind, proxy_to_upstream, respTruthy, Bool.false_eq_true, if_false,
      Option.pure_def, Option.some_bind, if_true, Option.some.injEq] at h
    subst h
    exact ⟨rfl, Nat.zero_le 1⟩

theorem alexaOther_spec (ns : Json) (upstream : UpstreamResult)
    (st : ServerState) (out : DispatchOut)
    (h : alexaOther ns upstream st = some out) :
    out.state = st ∧ out.eff.audits = 1 ∧ out.eff.webhooks ≤ 1 := by
  unfold alexaOther at h
  rw [Option.map_eq_some'] at h
  obtain ⟨r, hr, h⟩ := h
  obtain ⟨h1, h2⟩ := alexaOtherCore_eff ns upstream r hr
  subst h
  exact ⟨rfl, h1, h2⟩

theorem alexaDiscovery_spec (now ttl : Int) (userKey : String)
    (upstream : UpstreamResult) (st : ServerState) (out : DispatchOut)
    (h : alexaDiscovery now ttl userKey upstream st = some out) :
    out.state.sync_cache = st.sync_cache ∧
    out.state.query_cache = st.query_cache ∧
    out.state.alexa_state_cache = st.alexa_state_cache ∧
    out.eff.audits = 1 ∧ out.eff.webhooks ≤ 1 := by
  unfold alexaDiscovery at h
  cases hg : alexaDiscoveryHit now userKey st.alexa_discovery_cache with
  | some resp =>
    rw [hg] at h
    injection h with h
    subst h
    exact ⟨rfl, rfl, rfl, rfl, Nat.zero_le 1⟩
  | none =>
    rw [hg] at h
    cases upstream with
      | json b s =>
        simp only [bind, proxy_to_upstream, respTruthy, Bool.false_eq_true,
          not_false_eq_true, true_and, Option.pure_def, Option.some_bind] at h
        by_cases hb : b.truthy = true
        · rw [if_pos hb] at h
          obtain ⟨ev, hev, h⟩ := Option.bind_eq_some.mp h
          obtain ⟨pl, hpl, h⟩ := Option.bind_eq_some.mp h
          obtain ⟨eps, heps, h⟩ := Option.bind_eq_some.mp h
          obtain ⟨n, hn, h⟩ := Option.bind_eq_some.mp h
          injection h with h
          subst h
          exact ⟨rfl, rfl, rfl, rfl, Nat.le_refl 1⟩
        · rw [if_neg hb] at h
          injection h with h
          subst h
          exact ⟨rfl, rfl, rfl, rfl, Nat.zero_le 1⟩
      | timeout =>
        simp only [proxy_to_upstream, respTruthy, Bool.true_eq_false,
          not_true_eq_false, false_and, if_false] at h
        injection h with h
        subst h
        exact ⟨rfl, rfl, rfl, rfl, Nat.zero_le 1⟩
      | connError =>
        simp only [proxy_to_upstream, respTruthy, Bool.true_eq_false,
          not_true_eq_false, false_and, if_false] at h
        injection h with h
        subst h
        exact ⟨rfl, rfl, rfl, rfl, Nat.zero_le 1⟩
      | jsonDecodeError =>
        simp only [proxy_to_upstream, respTruthy, Bool.true_eq_false,
          not_true_eq_false, false_and, if_false] at h
        injection h with h
        subst h
        exact ⟨rfl, rfl, rfl, rfl, Nat.zero_le 1⟩
      | otherError =>
        simp only [proxy_to_upstream, respTruthy, Bool.true_eq_false,
          not_true_eq_false, false_and, if_false] at h
        injection h with h
        subst h
        exact ⟨rfl, rfl, rfl, rfl, Nat.zero_le 1⟩

theorem alexaOffline_spec (header endpoint endpoint_id : Json) (status : Nat)
    (st : ServerState) (out : DispatchOut)
    (h : alexaOffline header endpoint endpoint_id status st = some out) :
    out.state = st ∧
    (out.eff.audits = 1 ∨ (out.eff.audits = 0 ∧
      out.body = Json.obj [("error", Json.str "upstream_unavailable")])) ∧
    out.eff.webhooks ≤ 1 := by
  unfold alexaOffline at h
  cases hg : dictGet st.alexa_state_cache endpoint_id with
  | some c =>
    rw [hg] at h
    obtain ⟨m, hm, h⟩ := Option.bind_eq_some.mp h
    obtain ⟨ct, hct, h⟩ := Option.bind_eq_some.mp h
    injection h with h
    subst h
    exact ⟨rfl, Or.inl rfl, Nat.le_refl 1⟩
  | none =>
    rw [hg] at h
    injection h with h
    subst h
    exact ⟨rfl, Or.inr ⟨rfl, rfl⟩, Nat.zero_le 1⟩

theorem alexaReportState_spec (now : Int) (directive header : Json)
    (upstream : UpstreamResult) (st : ServerState) (out : DispatchOut)
    (h : alexaReportState now directive header upstream st = some out) :
    out.state.sync_cache = st.sync_cache ∧
    out.state.query_cache = st.query_cache ∧
    out.state.alexa_discovery_cache = st.alexa_discovery_cache ∧
    (out.state.alexa_state_cache = st.alexa_state_cache ∨
      ∃ b s eid ctx props, upstream = UpstreamResult.json b s ∧
        b.pyGetD "context" (Json.obj []) = some ctx ∧
        ctx.pyGetD "properties" (Json.arr []) = some props ∧
        props.truthy = true ∧
        out.state.alexa_state_cache
          = dictInsert st.alexa_state_cache eid ⟨props, now⟩) ∧
    (out.eff.audits = 1 ∨ (out.eff.audits = 0 ∧
      out.body = Json.obj [("error", Json.str "upstream_unavailable")])) ∧
    out.eff.webhooks ≤ 1 := by
  unfold alexaReportState at h
  simp only [bind] at h
  obtain ⟨endpoint, hep, h⟩ := Option.bind_eq_some.mp h
  obtain ⟨eid, heid, h⟩ := Option.bind_eq_some.mp h
  cases upstream with
  | json b s =>
    simp only [proxy_to_upstream, respTruthy, Bool.false_eq_true, not_false_eq_true,
      true_and, Option.pure_def, Option.some_bind] at h
    by_cases hb : b.truthy = true
    · rw [if_pos hb] at h
      obtain ⟨ctx, hctx, h⟩ := Option.bind_eq_some.mp h
      obtain ⟨props, hprops, h⟩ := Option.bind_eq_some.mp h
      by_cases ht : props.truthy = true
      · rw [if_pos ht] at h
        injection h with h
        subst h
        exact ⟨rfl, rfl, rfl,
          Or.inr ⟨b, s, eid, ctx, props, rfl, hctx, hprops, ht, rfl⟩,
          Or.inl rfl, Nat.zero_le 1⟩
      · rw [if_neg ht] at h
        injection h with h
        subst h
        exact ⟨rfl, rfl, rfl, Or.inl rfl, Or.inl rfl, Nat.zero_le 1⟩
    · rw [if_neg hb] at h
      obtain ⟨hst, haud, hweb⟩ := alexaOffline_spec header endpoint eid s st out h
      rw [hst]
      exact ⟨rfl, rfl, rfl, Or.inl rfl, haud, hweb⟩
  | timeout =>
    simp only [proxy_to_upstream, respTruthy, Bool.true_eq_false, not_true_eq_false,
      false_and, if_false] at h
    obtain ⟨hst, haud, hweb⟩ := alexaOffline_spec header endpoint eid 504 st out h
    rw [hst]
    exact ⟨rfl, rfl, rfl, Or.inl rfl, haud, hweb⟩
  | connError =>
    simp only [proxy_to_upstream, respTruthy, Bool.true_eq_false, not_true_eq_false,
      false_and, if_false] at h
    obtain ⟨hst, haud, hweb⟩ := alexaOffline_spec header endpoint eid 502 st out h
    rw [hst]
    exact ⟨rfl, rfl, rfl, Or.inl rfl, haud, hweb⟩
  | jsonDecodeError =>
    simp only [proxy_to_upstream, respTruthy, Bool.true_eq_false, not_true_eq_false,
      false_and, if_false] at h
    obtain ⟨hst, haud, hweb⟩ := alexaOffline_spec header endpoint eid 502 st out h
    rw [hst]
    exact ⟨rfl, rfl, rfl, Or.inl rfl, haud, hweb⟩
  | otherError =>
    simp only [proxy_to_upstream, respTruthy, Bool.true_eq_false, not_true_eq_false,
      false_and, if_false] at h
    obtain ⟨hst, haud, hweb⟩ := alexaOffline_spec header endpoint eid 500 st out h
    rw [hst]
    exact ⟨rfl, rfl, rfl, Or.inl rfl, haud, hweb⟩

/-! ## Dispatcher routing lemmas -/

theorem google_assistant_cases (now : Int) (cfg : Config) (data : Json)
    (upstream : UpstreamResult) (st : ServerState) (out : DispatchOut)
    (h : google_assistant now cfg data upstream st = some out) :
    (∃ u, handleSync now cfg.sync_cache_ttl u upstream st = some out) ∨
    (∃ inputsJ, handleQuery now data inputsJ upstream st = some out) ∨
    (∃ inputsJ, handleExecute inputsJ upstream st = some out) ∨
    handleUnknown upstream st = some out := by
  unfold google_assistant at h
  simp only [bind] at h
  obtain ⟨inputsJ, hin, h⟩ := Option.bind_eq_some.mp h
  obtain ⟨intent, hi, h⟩ := Option.bind_eq_some.mp h
  obtain ⟨u, hu, h⟩ := Option.bind_eq_some.mp h
  by_cases h1 : intent = Json.str "action.devices.SYNC"
  · rw [if_pos h1] at h
    exact Or.inl ⟨u, h⟩
  · rw [if_neg h1] at h
    by_cases h2 : intent = Json.str "action.devices.QUERY"
    · rw [if_pos h2] at h
      exact Or.inr (Or.inl ⟨inputsJ, h⟩)
    · rw [if_neg h2] at h
      by_cases h3 : intent = Json.str "action.devices.EXECUTE"
      · rw [if_pos h3] at h
        exact Or.inr (Or.inr (Or.inl ⟨inputsJ, h⟩))
      · rw [if_neg h3] at h
        exact Or.inr (Or.inr (Or.inr h))

theorem alexa_smart_home_cases (now : Int) (cfg : Config) (userKey : String)
    (data : Json) (upstream : UpstreamResult) (st : ServerState) (out : DispatchOut)
    (h : alexa_smart_home now cfg userKey data upstream st = some out) :
    alexaDiscovery now cfg.alexa_discovery_ttl userKey upstream st = some out ∨
    (∃ directive header, alexaReportState now directive header upstream st = some out) ∨
    (∃ ns, alexaOther ns upstream st = some out) := by
  unfold alexa_smart_home at h
  simp only [bind] at h
  obtain ⟨directive, hd, h⟩ := Option.bind_eq_some.mp h
  obtain ⟨header, hh, h⟩ := Option.bind_eq_some.mp h
  obtain ⟨ns, hns, h⟩ := Option.bind_eq_some.mp h
  obtain ⟨nm, hnm, h⟩ := Option.bind_eq_some.mp h
  by_cases h1 : ns = Json.str "Alexa.Discovery" ∧ nm = Json.str "Discover"
  · rw [if_pos h1] at h
    exact Or.inl h
  · rw [if_neg h1] at h
    by_cases h2 : ns = Json.str "Alexa" ∧ nm = Json.str "ReportState"
    · rw [if_pos h2] at h
      exact Or.inr (Or.inl ⟨directive, header, h⟩)
    · rw [if_neg h2] at h
      exact Or.inr (Or.inr ⟨ns, h⟩)

/-- Cache-hit evaluation of `get_cached_sync` for a string identity
(hashable and sliceable, so neither raise fires). -/
theorem get_cached_sync_hit (now : Int) (s : String) (sc : List (Json × SyncEntry))
    (e : SyncEntry) (hc : dictGet sc (Json.str s) = some e)
    (hf : e.expires_at > now) :
    get_cached_sync now (Json.str s) sc = some (some e.response) := by
  unfold get_cached_sync
  rw [if_pos (show pyHashable (Json.str s) = true from rfl), hc]
  show (if e.expires_at > now then
      if pySliceable (Json.str s) = true then some (some e.response) else none
    else some none) = some (some e.response)
  rw [if_pos hf, if_pos (show pySliceable (Json.str s) = true from rfl)]

/-- Cache-hit evaluation of `alexaDiscoveryHit`. -/
theorem alexaDiscoveryHit_hit (now : Int) (userKey : String)
    (dc : List (String × SyncEntry)) (e : SyncEntry)
    (hc : dictGet dc userKey = some e) (hf : e.expires_at > now) :
    alexaDiscoveryHit now userKey dc = some e.response := by
  unfold alexaDiscoveryHit
  rw [hc]
  exact if_pos hf

/-- Routing of a well-parsed Google request to its intent branch. -/
theorem google_assistant_route (now : Int) (cfg : Config) (data : Json)
    (upstream : UpstreamResult) (st : ServerState) (inputsJ intent u : Json)
    (hin : data.pyGetD "inputs" (Json.arr []) = some inputsJ)
    (hi : googleIntent inputsJ = some intent)
    (hu : data.pyGetD "agentUserId" (Json.str "default") = some u) :
    google_assistant now cfg data upstream st =
      (if intent = Json.str "action.devices.SYNC" then
        handleSync now cfg.sync_cache_ttl u upstream st
      else if intent = Json.str "action.devices.QUERY" then
        handleQuery now data inputsJ upstream st
      else if intent = Json.str "action.devices.EXECUTE" then
        handleExecute inputsJ upstream st
      else handleUnknown upstream st) := by
  unfold google_assistant
  rw [hin]
  simp only [bind, Option.some_bind]
  rw [hi]
  simp only [Option.some_bind]
  rw [hu]
  simp only [Option.some_bind]

/-- Routing of a well-parsed Alexa directive to its branch. -/
theorem alexa_smart_home_route (now : Int) (cfg : Config) (userKey : String)
    (data : Json) (upstream : UpstreamResult) (st : ServerState)
    (directive header ns nm : Json)
    (hd : data.pyGetD "directive" (Json.obj []) = some directive)
    (hh : directive.pyGetD "header" (Json.obj []) = some header)
    (hns : header.pyGetD "namespace" (Json.str "unknown") = some ns)
    (hnm : header.pyGetD "name" (Json.str "unknown") = some nm) :
    alexa_smart_home now cfg userKey data upstream st =
      (if ns = Json.str "Alexa.Discovery" ∧ nm = Json.str "Discover" then
        alexaDiscovery now cfg.alexa_discovery_ttl userKey upstream st
      else if ns = Json.str "Alexa" ∧ nm = Json.str "ReportState" then
        alexaReportState now directive header upstream st
      else alexaOther ns upstream st) := by
  unfold alexa_smart_home
  rw [hd]
  simp only [bind, Option.some_bind]
  rw [hh]
  simp only [Option.some_bind]
  rw [hns]
  simp only [Option.some_bind]
  rw [hnm]
  simp only [Option.some_bind]

/-! ## Rate-limiter lemmas -/

theorem rate_limit_admit (limit window now : Int) (ts : List Int)
    (hp : ts.filter (fun t => now - t < window) = ts)
    (hlt : (ts.length : Int) < limit) :
    rate_limit limit window now ts = (true, none, ts ++ [now]) := by
  unfold rate_limit
  rw [hp, if_neg (not_le.mpr hlt)]

theorem rate_limit_reject (limit window now : Int) (ts : List Int)
    (hp : ts.filter (fun t => now - t < window) = ts)
    (hge : limit ≤ (ts.length : Int)) :
    rate_limit limit window now ts = (false, some window, ts) := by
  unfold rate_limit
  rw [hp, if_pos hge]

theorem filter_window_of_bounds (window base now : Int) (ts : List Int)
    (hts : ∀ x ∈ ts, base ≤ x ∧ x < base + window)
    (hnow : now < base + window) :
    ts.filter (fun t => now - t < window) = ts := by
  rw [List.filter_eq_self]
  intro x hx
  have := hts x hx
  simp only [decide_eq_true_eq]
  omega

theorem rateLimitRun_admit_all (limit window base : Int) :
    ∀ (times ts : List Int),
    (∀ x ∈ times, base ≤ x ∧ x < base + window) →
    (∀ x ∈ ts, base ≤ x ∧ x < base + window) →
    (ts.length : Int) + (times.length : Int) ≤ limit →
    rateLimitRun limit window times ts
      = (List.replicate times.length true, ts ++ times) := by
  intro times
  induction times with
  | nil =>
    intro ts _ _ _
    simp [rateLimitRun]
  | cons t0 rest ih =>
    intro ts htimes hts hlen
    have ht0 := htimes t0 (List.mem_cons_self t0 rest)
    have hprune : ts.filter (fun t => t0 - t < window) = ts :=
      filter_window_of_bounds window base t0 ts hts ht0.2
    have hlt : (ts.length : Int) < limit := by
      simp only [List.length_cons] at hlen
      push_cast at hlen
      omega
    have hstep := rate_limit_admit limit window t0 ts hprune hlt
    have hts' : ∀ x ∈ ts ++ [t0], base ≤ x ∧ x < base + window := by
      intro x hx
      rcases List.mem_append.mp hx with hx | hx
      · exact hts x hx
      · rcases List.mem_singleton.mp hx with rfl
        exact ht0
    have hlen' : ((ts ++ [t0]).length : Int) + (rest.length : Int) ≤ limit := by
      simp only [List.length_append, List.length_cons, List.length_nil] at hlen ⊢
      push_cast at hlen ⊢
      omega
    have hrest := ih (ts ++ [t0])
      (fun x hx => htimes x (List.mem_cons_of_mem t0 hx)) hts' hlen'
    simp only [rateLimitRun, hstep, hrest, List.replicate_succ, List.length_cons]
    rw [List.append_assoc, List.singleton_append]

theorem rate_limit_step_bound (limit window now : Int) (ts : List Int)
    (h : ts.length ≤ limit.toNat) :
    (rate_limit limit window now ts).2.2.length ≤ limit.toNat := by
  have hf : (ts.filter (fun t => now - t < window)).length ≤ ts.length :=
    List.length_filter_le _ _
  unfold rate_limit
  by_cases hc : limit ≤ ((ts.filter (fun t => now - t < window)).length : Int)
  · rw [if_pos hc]
    dsimp only
    omega
  · rw [if_neg hc]
    dsimp only
    simp only [List.length_append, List.length_cons, List.length_nil]
    omega

theorem rateLimitRun_bound (limit window : Int) :
    ∀ (times ts : List Int), ts.length ≤ limit.toNat →
    (rateLimitRun limit window times ts).2.length ≤ limit.toNat := by
  intro times
  induction times with
  | nil => intro ts h; exact h
  | cons t0 rest ih =>
    intro ts h
    exact ih _ (rate_limit_step_bound limit window t0 ts h)

/-! ## QUERY-branch evaluation lemmas -/

theorem Json.pyGetD_of_pyGetD {data : Json} {k1 : String} {d1 v1 : Json}
    (h : data.pyGetD k1 d1 = some v1) (k2 : String) (d2 : Json) :
    ∃ v2, data.pyGetD k2 d2 = some v2 := by
  cases data
  case obj fs => exact ⟨_, rfl⟩
  all_goals exact Option.noConfusion h

theorem google_assistant_query_route (now : Int) (cfg : Config) (data : Json)
    (upstream : UpstreamResult) (st : ServerState) (inputsJ u : Json)
    (hin : data.pyGetD "inputs" (Json.arr []) = some inputsJ)
    (hi : googleIntent inputsJ = some (Json.str "action.devices.QUERY"))
    (hu : data.pyGetD "agentUserId" (Json.str "default") = some u) :
    google_assistant now cfg data upstream st
      = handleQuery now data inputsJ upstream st := by
  rw [google_assistant_route now cfg data upstream st inputsJ _ u hin hi hu,
    if_neg (by decide), if_pos rfl]

theorem handleQuery_success (now : Int) (data inputsJ b : Json) (s : Nat)
    (st : ServerState) (out : DispatchOut) (hb : b.truthy = true)
    (h : handleQuery now data inputsJ (UpstreamResult.json b s) st = some out) :
    out.body = b ∧ out.status = 200 ∧ out.eff = ⟨true, 0, 1⟩ ∧
    ∃ dv, extractRespDevices b = some dv ∧
      ((dv.truthy = true ∧ ∃ fs, dv.asObj = some fs ∧
        out.state = { st with query_cache := cache_query_states now fs st.query_cache }) ∨
       (dv.truthy = false ∧ out.state = st)) := by
  unfold handleQuery at h
  simp only [bind] at h
  obtain ⟨ids, hids, h⟩ := Option.bind_eq_some.mp h
  simp only [proxy_to_upstream, respTruthy, Bool.false_eq_true, not_false_eq_true,
    true_and] at h
  rw [if_pos hb] at h
  simp only [bind, Option.some_bind] at h
  obtain ⟨dv, hdv, h⟩ := Option.bind_eq_some.mp h
  by_cases ht : dv.truthy = true
  · rw [if_pos ht] at h
    obtain ⟨fs, hfs, h⟩ := Option.bind_eq_some.mp h
    injection h with h
    subst h
    exact ⟨rfl, rfl, rfl, dv, hdv, Or.inl ⟨ht, fs, hfs, rfl⟩⟩
  · rw [if_neg ht] at h
    injection h with h
    subst h
    exact ⟨rfl, rfl, rfl, dv, hdv, Or.inr ⟨by simpa using ht, rfl⟩⟩

theorem handleQuery_offline_eval (now : Int) (data inputsJ : Json)
    (st : ServerState) (ids : List Json) (upstream : UpstreamResult)
    (hids : queryDeviceIds inputsJ = some ids)
    (herr : upstream = UpstreamResult.timeout ∨ upstream = UpstreamResult.connError ∨
      upstream = UpstreamResult.jsonDecodeError ∨ upstream = UpstreamResult.otherError) :
    handleQuery now data inputsJ upstream st
      = queryOffline data ids (proxy_to_upstream upstream).2.1 st := by
  have base : ∀ u2 : UpstreamResult, (proxy_to_upstream u2).2.2 = true →
      handleQuery now data inputsJ u2 st
        = queryOffline data ids (proxy_to_upstream u2).2.1 st := by
    intro u2 he
    unfold handleQuery
    simp only [bind]
    rw [hids]
    simp only [Option.some_bind, he, Bool.true_eq_false, not_true_eq_false,
      false_and, if_false]
  rcases herr with rfl | rfl | rfl | rfl
  · exact base _ rfl
  · exact base _ rfl
  · exact base _ rfl
  · exact base _ rfl

theorem queryOffline_served (data : Json) (ids : List Json) (status : Nat)
    (st : ServerState) (states : List (String × Json)) (reqId : Json)
    (hc : get_cached_states ids st.query_cache = some states) (hne : states ≠ [])
    (hrid : data.pyGetD "requestId" Json.null = some reqId) :
    queryOffline data ids status st
      = some ⟨Json.obj [("requestId", reqId),
          ("payload", Json.obj [("devices", Json.obj states)])],
          200, st, ⟨true, 1, 1⟩⟩ := by
  unfold queryOffline
  simp only [bind]
  rw [hc]
  simp only [Option.some_bind]
  rw [if_pos (by simp [List.isEmpty_eq_false.mpr hne]), hrid]
  simp only [Option.some_bind, Option.pure_def]

theorem queryOffline_unavailable (data : Json) (ids : List Json) (status : Nat)
    (st : ServerState)
    (hc : get_cached_states ids st.query_cache = some []) :
    queryOffline data ids status st
      = some ⟨Json.obj [("error", Json.str "upstream_unavailable")], status, st,
          ⟨true, 0, 0⟩⟩ := by
  unfold queryOffline
  simp only [bind]
  rw [hc]
  simp only [Option.some_bind]
  rw [if_neg (by simp)]
  rfl

theorem get_cached_states_nil (ids : List Json) :
    get_cached_states ids [] = some [] := by
  unfold get_cached_states
  induction ids with
  | nil => rfl
  | cons id rest ih =>
    rw [List.foldl_cons]
    have hstep : cacheStateStep [] (some []) id = some [] := by
      cases id <;> rfl
    rw [hstep]
    exact ih

theorem handleExecute_strip (inputsJ : Json) (upstream : UpstreamResult)
    (st : ServerState) :
    (handleExecute inputsJ upstream st).map stripOut
      = (handleExecuteCore inputsJ upstream).map (fun r => (r.1, r.2.1, r.2.2)) := by
  unfold handleExecute stripOut
  cases handleExecuteCore inputsJ upstream <;> rfl

theorem alexaOther_strip (ns : Json) (upstream : UpstreamResult) (st : ServerState) :
    (alexaOther ns upstream st).map stripOut
      = (alexaOtherCore ns upstream).map (fun r => (r.1, r.2.1, r.2.2)) := by
  unfold alexaOther stripOut
  cases alexaOtherCore ns upstream <;> rfl

/-! ## ReportState-branch evaluation lemmas -/

theorem alexa_smart_home_report_route (now : Int) (cfg : Config) (userKey : String)
    (data : Json) (upstream : UpstreamResult) (st : ServerState)
    (directive header : Json)
    (hd : data.pyGetD "directive" (Json.obj []) = some directive)
    (hh : directive.pyGetD "header" (Json.obj []) = some header)
    (hns : header.pyGetD "namespace" (Json.str "unknown") = some (Json.str "Alexa"))
    (hnm : header.pyGetD "name" (Json.str "unknown")
      = some (Json.str "ReportState")) :
    alexa_smart_home now cfg userKey data upstream st
      = alexaReportState now directive header upstream st := by
  rw [alexa_smart_home_route now cfg userKey data upstream st directive header _ _
    hd hh hns hnm, if_neg (by decide), if_pos ⟨rfl, rfl⟩]

theorem alexaReportState_success (now : Int) (directive header b : Json) (s : Nat)
    (st : ServerState) (out : DispatchOut) (hb : b.truthy = true)
    (h : alexaReportState now directive header (UpstreamResult.json b s) st
      = some out) :
    out.body = b ∧ out.status = 200 ∧ out.eff = ⟨true, 0, 1⟩ ∧
    ∃ endpoint eid ctx props,
      directive.pyGetD "endpoint" (Json.obj []) = some endpoint ∧
      endpoint.pyGetD "endpointId" (Json.str "unknown") = some eid ∧
      b.pyGetD "context" (Json.obj []) = some ctx ∧
      ctx.pyGetD "properties" (Json.arr []) = some props ∧
      ((props.truthy = true ∧
        out.state
          = { st with
              alexa_state_cache := dictInsert st.alexa_state_cache eid ⟨props, now⟩ }) ∨
       (props.truthy = false ∧ out.state = st)) := by
  unfold alexaReportState at h
  simp only [bind] at h
  obtain ⟨endpoint, hep, h⟩ := Option.bind_eq_some.mp h
  obtain ⟨eid, heid, h⟩ := Option.bind_eq_some.mp h
  simp only [proxy_to_upstream, respTruthy, Bool.false_eq_true, not_false_eq_true,
    true_and, Option.pure_def, Option.some_bind] at h
  rw [if_pos hb] at h
  obtain ⟨ctx, hctx, h⟩ := Option.bind_eq_some.mp h
  obtain ⟨props, hprops, h⟩ := Option.bind_eq_some.mp h
  by_cases ht : props.truthy = true
  · rw [if_pos ht] at h
    injection h with h
    subst h
    exact ⟨rfl, rfl, rfl, endpoint, eid, ctx, props, hep, heid, hctx, hprops,
      Or.inl ⟨ht, rfl⟩⟩
  · rw [if_neg ht] at h
    injection h with h
    subst h
    exact ⟨rfl, rfl, rfl, endpoint, eid, ctx, props, hep, heid, hctx, hprops,
      Or.inr ⟨by simpa using ht, rfl⟩⟩

theorem alexaReportState_offline_eval (now : Int)
    (directive header endpoint eid : Json) (st : ServerState)
    (upstream : UpstreamResult)
    (hep : directive.pyGetD "endpoint" (Json.obj []) = some endpoint)
    (heid : endpoint.pyGetD "endpointId" (Json.str "unknown") = some eid)
    (herr : upstream = UpstreamResult.timeout ∨ upstream = UpstreamResult.connError ∨
      upstream = UpstreamResult.jsonDecodeError ∨
      upstream = UpstreamResult.otherError) :
    alexaReportState now directive header upstream st
      = alexaOffline header endpoint eid (proxy_to_upstream upstream).2.1 st := by
  have base : ∀ u2 : UpstreamResult, (proxy_to_upstream u2).2.2 = true →
      alexaReportState now directive header u2 st
        = alexaOffline header endpoint eid (proxy_to_upstream u2).2.1 st := by
    intro u2 he
    unfold alexaReportState
    simp only [bind]
    rw [hep]
    simp only [Option.some_bind]
    rw [heid]
    simp only [Option.some_bind, he, Bool.true_eq_false, not_true_eq_false,
      false_and, if_false]
  rcases herr with rfl | rfl | rfl | rfl
  · exact base _ rfl
  · exact base _ rfl
  · exact base _ rfl
  · exact base _ rfl

theorem alexaOffline_served (header endpoint eid : Json) (status : Nat)
    (st : ServerState) (c : AlexaStateEntry) (msgId corr : Json)
    (hc : dictGet st.alexa_state_cache eid = some c)
    (hm : header.pyGetD "messageId" (Json.str "") = some msgId)
    (hcorr : header.pyGetD "correlationToken" (Json.str "") = some corr) :
    alexaOffline header endpoint eid status st
      = some ⟨Json.obj [("event", Json.obj
            [("header", Json.obj
               [("namespace", Json.str "Alexa"), ("name", Json.str "StateReport"),
                ("messageId", msgId), ("correlationToken", corr),
                ("payloadVersion", Json.str "3")]),
             ("endpoint", endpoint), ("payload", Json.obj [])]),
           ("context", Json.obj [("properties", c.properties)])],
          200, st, ⟨true, 1, 1⟩⟩ := by
  unfold alexaOffline
  rw [hc]
  exact Option.bind_eq_some.mpr ⟨msgId, hm, Option.bind_eq_some.mpr ⟨corr, hcorr, rfl⟩⟩

theorem alexaOffline_unavailable (header endpoint eid : Json) (status : Nat)
    (st : ServerState)
    (hc : dictGet st.alexa_state_cache eid = none) :
    alexaOffline header endpoint eid status st
      = some ⟨Json.obj [("error", Json.str "upstream_unavailable")], status, st,
          ⟨true, 0, 0⟩⟩ := by
  unfold alexaOffline
  rw [hc]

/-! ## Claims -/

theorem rateLimitRun_append (limit window : Int) :
    ∀ (xs ys ts : List Int),
    rateLimitRun limit window (xs ++ ys) ts
      = ((rateLimitRun limit window xs ts).1
          ++ (rateLimitRun limit window ys (rateLimitRun limit window xs ts).2).1,
        (rateLimitRun limit window ys (rateLimitRun limit window xs ts).2).2) := by
  intro xs
  induction xs with
  | nil => intro ys ts; rfl
  | cons x rest ih =>
    intro ys ts
    simp only [List.cons_append, rateLimitRun, List.append_eq, ih, List.nil_append]

/-- C4: on each rate-limiter pass, timestamps older than the window are
discarded first; a pruned count at or above the ceiling rejects the call
with the window as retry hint and does not record the call's timestamp;
otherwise the timestamp is appended and the call admitted.  Consequently
the (ceiling+1)-th request inside one window is rejected, and after a
full idle window the next request is admitted. -/
theorem claim_C4 :
    (∀ (limit window now : Int) (ts : List Int),
      (limit ≤ ((ts.filter (fun t => now - t < window)).length : Int) →
        rate_limit limit window now ts
          = (false, some window, ts.filter (fun t => now - t < window))) ∧
      (((ts.filter (fun t => now - t < window)).length : Int) < limit →
        rate_limit limit window now ts
          = (true, none, ts.filter (fun t => now - t < window) ++ [now]))) ∧
    (∀ (limit window base : Int) (times : List Int) (t : Int),
      (times.length : Int) = limit →
      (∀ x ∈ times, base ≤ x ∧ x < base + window) →
      base ≤ t → t < base + window →
      (rateLimitRun limit window (times ++ [t]) []).1
        = List.replicate times.length true ++ [false]) ∧
    (∀ (limit window now : Int) (ts : List Int),
      0 < limit → (∀ x ∈ ts, window ≤ now - x) →
      rate_limit limit window now ts = (true, none, [now])) := by
  refine ⟨?_, ?_, ?_⟩
  · intro limit window now ts
    constructor
    · intro hge
      unfold rate_limit
      rw [if_pos hge]
    · intro hlt
      unfold rate_limit
      rw [if_neg (not_le.mpr hlt)]
  · intro limit window base times t hlen htimes hbase hlt
    have hall := rateLimitRun_admit_all limit window base times []
      htimes (by intro x hx; cases hx) (by simp [hlen])
    have hrej := rate_limit_reject limit window t times
      (filter_window_of_bounds window base t times htimes hlt)
      (le_of_eq hlen.symm)
    rw [rateLimitRun_append]
    rw [hall]
    simp only [List.nil_append, rateLimitRun, hrej]
  · intro limit window now ts h0 hidle
    have hp : ts.filter (fun t => now - t < window) = [] := by
      rw [List.filter_eq_nil_iff]
      intro x hx
      have := hidle x hx
      simp only [decide_eq_true_eq]
      omega
    unfold rate_limit
    rw [hp]
    rw [if_neg (by simpa using h0)]
    rfl

/-- Witness for C4 at concrete inputs: ceiling 2, window 60; a client at
times 0, 1 is admitted twice and rejected on the third call at time 2;
a full window later a single retained timestamp is pruned and the call
admitted; an over-ceiling pass rejects with retry hint 60 and records
nothing. -/
theorem claim_C4_witness :
    rate_limit 1 60 100 ([50, 90] : List Int) = (false, some 60, [50, 90]) ∧
    (rateLimitRun 2 60 (([0, 1] : List Int) ++ [2]) []).1 = [true, true, false] ∧
    rate_limit 2 60 70 ([5] : List Int) = (true, none, [70]) := by
  refine ⟨?_, ?_, ?_⟩
  · exact (claim_C4.1 1 60 100 [50, 90]).1 (by decide)
  · exact claim_C4.2.1 2 60 0 [0, 1] 2 (by decide) (by decide) (by decide) (by decide)
  · exact claim_C4.2.2 2 60 70 [5] (by decide) (by decide)

/-- C9: after every completed rate-limiter pass the retained timestamp
list has length at most the configured ceiling (a timestamp is appended
only when the pruned count is strictly below the ceiling), hence every
reachable per-client list from an empty start is bounded by the
ceiling. -/
theorem claim_C9 :
    (∀ (limit window now : Int) (ts : List Int), ts.length ≤ limit.toNat →
      (rate_limit limit window now ts).2.2.length ≤ limit.toNat) ∧
    (∀ (limit window : Int) (times : List Int),
      (rateLimitRun limit window times []).2.length ≤ limit.toNat) :=
  ⟨rate_limit_step_bound,
   fun limit window times => rateLimitRun_bound limit window times [] (Nat.zero_le _)⟩

/-- Witness for C9: three calls inside one window at ceiling 2 leave
exactly 2 retained timestamps, within the bound. -/
theorem claim_C9_witness :
    (rate_limit 2 60 2 ([0, 1] : List Int)).2.2.length ≤ 2 ∧
    (rateLimitRun 2 60 ([0, 1, 2] : List Int) []).2.length ≤ 2 := by
  constructor
  · exact claim_C9.1 2 60 2 [0, 1] (by decide)
  · exact claim_C9.2 2 60 [0, 1, 2]

/-- C5 (amended): `clear_cache` reports the sizes of the two
Google-dialect caches and empties exactly those; a second call therefore
reports zero; afterwards no Google read is served from a pre-clear
entry.  The two Alexa-dialect caches are left untouched (they may still
serve pre-clear entries, which is what forced the amendment). -/
theorem claim_C5 :
    ∀ st : ServerState,
      (clear_cache st).1
        = Json.obj [("status", Json.str "cleared"),
            ("sync_cleared", Json.num (st.sync_cache.length : Int)),
            ("query_cleared", Json.num (st.query_cache.length : Int))] ∧
      (clear_cache (clear_cache st).2).1
        = Json.obj [("status", Json.str "cleared"),
            ("sync_cleared", Json.num 0), ("query_cleared", Json.num 0)] ∧
      (clear_cache st).2.sync_cache = [] ∧
      (clear_cache st).2.query_cache = [] ∧
      (clear_cache st).2.alexa_discovery_cache = st.alexa_discovery_cache ∧
      (clear_cache st).2.alexa_state_cache = st.alexa_state_cache ∧
      (∀ (now : Int) (u resp : Json),
        get_cached_sync now u (clear_cache st).2.sync_cache
          ≠ some (some resp)) ∧
      (∀ ids : List Json,
        get_cached_states ids (clear_cache st).2.query_cache = some []) := by
  intro st
  refine ⟨rfl, rfl, rfl, rfl, rfl, rfl, ?_, ?_⟩
  · intro now u resp heq
    unfold get_cached_sync at heq
    by_cases hh : pyHashable u = true
    · rw [if_pos hh] at heq
      injection heq with heq
      exact Option.noConfusion heq
    · rw [if_neg hh] at heq
      exact Option.noConfusion heq
  · intro ids
    exact get_cached_states_nil ids

/-- Witness for C5 at a concrete non-empty state: nonzero-then-zero
cleared counts, and both Google caches empty after the call. -/
theorem claim_C5_witness :
    (clear_cache stCached).1
      = Json.obj [("status", Json.str "cleared"), ("sync_cleared", Json.num 1),
          ("query_cleared", Json.num 1)] ∧
    (clear_cache (clear_cache stCached).2).1
      = Json.obj [("status", Json.str "cleared"), ("sync_cleared", Json.num 0),
          ("query_cleared", Json.num 0)] ∧
    get_cached_states [Json.str "D1"] (clear_cache stCached).2.query_cache
      = some [] := by
  refine ⟨?_, (claim_C5 stCached).2.1, (claim_C5 stCached).2.2.2.2.2.2.2 [Json.str "D1"]⟩
  exact (claim_C5 stCached).1

/-- C5 counterexample: the claim's "after either call both caches are
empty (no subsequent read is served from a pre-clear entry)" fails for
the Alexa half of the enumeration cache: after `clear_cache`, an Alexa
Discovery call is still answered from the pre-clear
`alexa_discovery_cache` entry without invoking the upstream. -/
theorem claim_C5_counterexample :
    (clear_cache stCached).2.alexa_discovery_cache ≠ [] ∧
    alexa_smart_home 100 cfgW "ukey" discoverReq UpstreamResult.timeout
        (clear_cache stCached).2
      = some ⟨Json.str "ALEXA", 200, (clear_cache stCached).2, ⟨false, 0, 1⟩⟩ := by
  exact ⟨by decide, rfl⟩

/-- C3 (amended): an Enumerate call (Google SYNC or Alexa
Discovery.Discover) whose caller identity has a cached entry with
`expires_at` still in the future is answered with exactly the stored
payload, upstream not invoked and state unchanged — on the Google side
provided the caller identity is a string, the stored response is truthy
and it survives the audit record's SYNC-block dereference
(`logRequestSync`); a fresh entry holding a truthy non-dict response
instead fails the request with a 500, which is what forced the
amendment.  The Alexa half holds unconditionally: the Discovery branch's
audit record never dereferences the response, and its `user_id` is a hex
digest string. -/
theorem claim_C3 :
    (∀ (now : Int) (cfg : Config) (data : Json) (upstream : UpstreamResult)
       (st : ServerState) (inputsJ : Json) (s : String) (e : SyncEntry),
      data.pyGetD "inputs" (Json.arr []) = some inputsJ →
      googleIntent inputsJ = some (Json.str "action.devices.SYNC") →
      data.pyGetD "agentUserId" (Json.str "default") = some (Json.str s) →
      dictGet st.sync_cache (Json.str s) = some e → now < e.expires_at →
      e.response.truthy = true →
      logRequestSync e.response = some () →
      google_assistant now cfg data upstream st
        = some ⟨e.response, 200, st, ⟨false, 0, 1⟩⟩) ∧
    (∀ (now : Int) (cfg : Config) (userKey : String) (data : Json)
       (upstream : UpstreamResult) (st : ServerState) (directive header : Json)
       (e : SyncEntry),
      data.pyGetD "directive" (Json.obj []) = some directive →
      directive.pyGetD "header" (Json.obj []) = some header →
      header.pyGetD "namespace" (Json.str "unknown")
        = some (Json.str "Alexa.Discovery") →
      header.pyGetD "name" (Json.str "unknown") = some (Json.str "Discover") →
      dictGet st.alexa_discovery_cache userKey = some e → now < e.expires_at →
      alexa_smart_home now cfg userKey data upstream st
        = some ⟨e.response, 200, st, ⟨false, 0, 1⟩⟩) := by
  constructor
  · intro now cfg data upstream st inputsJ s e hin hi hu hc hf ht hlog
    rw [google_assistant_route now cfg data upstream st inputsJ _ (Json.str s)
      hin hi hu, if_pos rfl]
    unfold handleSync
    rw [get_cached_sync_hit now s st.sync_cache e hc hf]
    show (if e.response.truthy = true then handleSyncHit e.response st
        else handleSyncMiss now cfg.sync_cache_ttl (Json.str s) upstream st)
      = some ⟨e.response, 200, st, ⟨false, 0, 1⟩⟩
    rw [if_pos ht]
    unfold handleSyncHit
    simp only [bind]
    rw [hlog]
    rfl
  · intro now cfg userKey data upstream st directive header e hd hh hns hnm hc hf
    rw [alexa_smart_home_route now cfg userKey data upstream st directive header
      _ _ hd hh hns hnm, if_pos ⟨rfl, rfl⟩]
    unfold alexaDiscovery
    rw [alexaDiscoveryHit_hit now userKey st.alexa_discovery_cache e hc hf]

/-- Witness for C3: a fresh, well-shaped SYNC cache entry for `u1` and a
fresh Alexa discovery entry for `ukey` are served verbatim with no
upstream call. -/
theorem claim_C3_witness :
    google_assistant 100 cfgW syncReq UpstreamResult.timeout stCached
      = some ⟨respW, 200, stCached, ⟨false, 0, 1⟩⟩ ∧
    alexa_smart_home 100 cfgW "ukey" discoverReq UpstreamResult.timeout stCached
      = some ⟨Json.str "ALEXA", 200, stCached, ⟨false, 0, 1⟩⟩ := by
  constructor
  · exact claim_C3.1 100 cfgW syncReq UpstreamResult.timeout stCached
      (Json.arr [Json.obj [("intent", Json.str "action.devices.SYNC")]])
      "u1" ⟨respW, 500⟩ rfl rfl rfl (by decide) (by decide) (by decide) rfl
  · exact claim_C3.2 100 cfgW "ukey" discoverReq UpstreamResult.timeout stCached
      (Json.obj [("header", Json.obj [("namespace", Json.str "Alexa.Discovery"),
        ("name", Json.str "Discover")])])
      (Json.obj [("namespace", Json.str "Alexa.Discovery"),
        ("name", Json.str "Discover")])
      ⟨Json.str "ALEXA", 900⟩ rfl rfl rfl rfl (by decide) (by decide)

/-- C3 counterexample: a fresh SYNC cache entry whose stored response is
the truthy string `"G"` is NOT served back byte-identical — the audit
record's SYNC block dereferences it
(`response_data.get("payload", {})`, lines 272-274), which raises on a
non-dict, so the request fails (a 500, modelled as `none`) instead of
answering with the cached payload. -/
theorem claim_C3_counterexample :
    dictGet stBadSync.sync_cache (Json.str "u1") = some ⟨Json.str "G", 500⟩ ∧
    (100 : Int) < 500 ∧
    google_assistant 100 cfgW syncReq UpstreamResult.timeout stBadSync = none := by
  exact ⟨rfl, by decide, rfl⟩

/-- C6: Execute/Control requests (Google EXECUTE; any Alexa directive
outside Discovery.Discover and ReportState, which includes every
`*Controller` directive) neither read nor write any cache: the state is
returned unchanged, and the caller-visible result (body, status,
effects) is the same for any two cache states. -/
theorem claim_C6 :
    (∀ (now : Int) (cfg : Config) (data : Json) (upstream : UpstreamResult)
       (st st2 : ServerState) (inputsJ u : Json),
      data.pyGetD "inputs" (Json.arr []) = some inputsJ →
      googleIntent inputsJ = some (Json.str "action.devices.EXECUTE") →
      data.pyGetD "agentUserId" (Json.str "default") = some u →
      (∀ out, google_assistant now cfg data upstream st = some out →
        out.state = st) ∧
      (google_assistant now cfg data upstream st).map stripOut
        = (google_assistant now cfg data upstream st2).map stripOut) ∧
    (∀ (now : Int) (cfg : Config) (userKey : String) (data : Json)
       (upstream : UpstreamResult) (st st2 : ServerState)
       (directive header ns nm : Json),
      data.pyGetD "directive" (Json.obj []) = some directive →
      directive.pyGetD "header" (Json.obj []) = some header →
      header.pyGetD "namespace" (Json.str "unknown") = some ns →
      header.pyGetD "name" (Json.str "unknown") = some nm →
      ¬(ns = Json.str "Alexa.Discovery" ∧ nm = Json.str "Discover") →
      ¬(ns = Json.str "Alexa" ∧ nm = Json.str "ReportState") →
      (∀ out, alexa_smart_home now cfg userKey data upstream st = some out →
        out.state = st) ∧
      (alexa_smart_home now cfg userKey data upstream st).map stripOut
        = (alexa_smart_home now cfg userKey data upstream st2).map stripOut) := by
  constructor
  · intro now cfg data upstream st st2 inputsJ u hin hi hu
    have hr : ∀ st3 : ServerState, google_assistant now cfg data upstream st3
        = handleExecute inputsJ upstream st3 := by
      intro st3
      rw [google_assistant_route now cfg data upstream st3 inputsJ _ u hin hi hu,
        if_neg (by decide), if_neg (by decide), if_pos rfl]
    constructor
    · intro out h
      rw [hr st] at h
      exact (handleExecute_spec inputsJ upstream st out h).1
    · rw [hr st, hr st2, handleExecute_strip, handleExecute_strip]
  · intro now cfg userKey data upstream st st2 directive header ns nm hd hh hns hnm
      hnd hnr
    have hr : ∀ st3 : ServerState, alexa_smart_home now cfg userKey data upstream st3
        = alexaOther ns upstream st3 := by
      intro st3
      rw [alexa_smart_home_route now cfg userKey data upstream st3 directive header
        ns nm hd hh hns hnm, if_neg hnd, if_neg hnr]
    constructor
    · intro out h
      rw [hr st] at h
      exact (alexaOther_spec ns upstream st out h).1
    · rw [hr st, hr st2, alexaOther_strip, alexaOther_strip]

/-- Witness for C6: an EXECUTE request and an Alexa PowerController
directive leave the fully-populated `stCached` unchanged, and their
stripped results do not depend on the cache contents. -/
theorem claim_C6_witness :
    (∀ out, google_assistant 100 cfgW
        (Json.obj [("inputs", Json.arr [Json.obj
          [("intent", Json.str "action.devices.EXECUTE"),
           ("payload", Json.obj [("commands", Json.arr [])])]])])
        (UpstreamResult.json (Json.obj [("ok", Json.bool true)]) 200) stCached
        = some out → out.state = stCached) ∧
    (google_assistant 100 cfgW
        (Json.obj [("inputs", Json.arr [Json.obj
          [("intent", Json.str "action.devices.EXECUTE"),
           ("payload", Json.obj [("commands", Json.arr [])])]])])
        (UpstreamResult.json (Json.obj [("ok", Json.bool true)]) 200)
        stCached).map stripOut
      = (google_assistant 100 cfgW
          (Json.obj [("inputs", Json.arr [Json.obj
            [("intent", Json.str "action.devices.EXECUTE"),
             ("payload", Json.obj [("commands", Json.arr [])])]])])
          (UpstreamResult.json (Json.obj [("ok", Json.bool true)]) 200)
          stEmpty).map stripOut ∧
    (∀ out, alexa_smart_home 100 cfgW "ukey"
        (Json.obj [("directive", Json.obj [("header", Json.obj
          [("namespace", Json.str "Alexa.PowerController"),
           ("name", Json.str "TurnOn")])])])
        (UpstreamResult.json (Json.obj [("ok", Json.bool true)]) 200) stCached
        = some out → out.state = stCached) := by
  refine ⟨?_, ?_, ?_⟩
  · exact (claim_C6.1 100 cfgW
      (Json.obj [("inputs", Json.arr [Json.obj
          [("intent", Json.str "action.devices.EXECUTE"),
           ("payload", Json.obj [("commands", Json.arr [])])]])])
      (UpstreamResult.json (Json.obj [("ok", Json.bool true)]) 200) stCached stEmpty
      (Json.arr [Json.obj [("intent", Json.str "action.devices.EXECUTE"),
        ("payload", Json.obj [("commands", Json.arr [])])]])
      (Json.str "default") rfl rfl rfl).1
  · exact (claim_C6.1 100 cfgW
      (Json.obj [("inputs", Json.arr [Json.obj
          [("intent", Json.str "action.devices.EXECUTE"),
           ("payload", Json.obj [("commands", Json.arr [])])]])])
      (UpstreamResult.json (Json.obj [("ok", Json.bool true)]) 200) stCached stEmpty
      (Json.arr [Json.obj [("intent", Json.str "action.devices.EXECUTE"),
        ("payload", Json.obj [("commands", Json.arr [])])]])
      (Json.str "default") rfl rfl rfl).2
  · exact (claim_C6.2 100 cfgW "ukey"
      (Json.obj [("directive", Json.obj [("header", Json.obj
        [("namespace", Json.str "Alexa.PowerController"),
         ("name", Json.str "TurnOn")])])])
      (UpstreamResult.json (Json.obj [("ok", Json.bool true)]) 200) stCached stEmpty
      (Json.obj [("header", Json.obj [("namespace", Json.str "Alexa.PowerController"),
        ("name", Json.str "TurnOn")])])
      (Json.obj [("namespace", Json.str "Alexa.PowerController"),
        ("name", Json.str "TurnOn")])
      (Json.str "Alexa.PowerController") (Json.str "TurnOn")
      rfl rfl rfl rfl (by decide) (by decide)).1

/-- C7 (amended): for every request that completes without an exception,
at most one event-notification call is made, and exactly one audit
record is emitted except on the ReadState upstream-failure branch with
no cached fallback, which returns `upstream_unavailable` and emits no
audit record at all (the source returns before its `log_request`). -/
theorem claim_C7 :
    (∀ (now : Int) (cfg : Config) (data : Json) (upstream : UpstreamResult)
       (st : ServerState) (out : DispatchOut),
      google_assistant now cfg data upstream st = some out →
      out.eff.webhooks ≤ 1 ∧
      (out.eff.audits = 1 ∨ (out.eff.audits = 0 ∧
        out.body = Json.obj [("error", Json.str "upstream_unavailable")]))) ∧
    (∀ (now : Int) (cfg : Config) (userKey : String) (data : Json)
       (upstream : UpstreamResult) (st : ServerState) (out : DispatchOut),
      alexa_smart_home now cfg userKey data upstream st = some out →
      out.eff.webhooks ≤ 1 ∧
      (out.eff.audits = 1 ∨ (out.eff.audits = 0 ∧
        out.body = Json.obj [("error", Json.str "upstream_unavailable")]))) := by
  constructor
  · intro now cfg data upstream st out h
    rcases google_assistant_cases now cfg data upstream st out h with
      ⟨u, h⟩ | ⟨inputsJ, h⟩ | ⟨inputsJ, h⟩ | h
    · obtain ⟨_, _, _, ha, hw⟩ := handleSync_spec now cfg.sync_cache_ttl u upstream st out h
      exact ⟨hw, Or.inl ha⟩
    · obtain ⟨_, _, _, _, ha, hw⟩ := handleQuery_spec now data inputsJ upstream st out h
      exact ⟨hw, ha⟩
    · obtain ⟨_, ha, hw⟩ := handleExecute_spec inputsJ upstream st out h
      exact ⟨hw, Or.inl ha⟩
    · obtain ⟨_, ha, hw⟩ := handleUnknown_spec upstream st out h
      exact ⟨by omega, Or.inl ha⟩
  · intro now cfg userKey data upstream st out h
    rcases alexa_smart_home_cases now cfg userKey data upstream st out h with
      h | ⟨directive, header, h⟩ | ⟨ns, h⟩
    · obtain ⟨_, _, _, ha, hw⟩ :=
        alexaDiscovery_spec now cfg.alexa_discovery_ttl userKey upstream st out h
      exact ⟨hw, Or.inl ha⟩
    · obtain ⟨_, _, _, _, ha, hw⟩ :=
        alexaReportState_spec now directive header upstream st out h
      exact ⟨hw, ha⟩
    · obtain ⟨_, ha, hw⟩ := alexaOther_spec ns upstream st out h
      exact ⟨hw, Or.inl ha⟩

/-- Witness for C7: the SYNC cache-hit branch emits exactly one audit
record and no webhook call. -/
theorem claim_C7_witness :
    google_assistant 100 cfgW syncReq UpstreamResult.timeout stCached = some
      ⟨respW, 200, stCached, ⟨false, 0, 1⟩⟩ ∧
    (⟨respW, 200, stCached, ⟨false, 0, 1⟩⟩ : DispatchOut).eff.webhooks ≤ 1 ∧
    ((⟨respW, 200, stCached, ⟨false, 0, 1⟩⟩ : DispatchOut).eff.audits = 1 ∨
      ((⟨respW, 200, stCached, ⟨false, 0, 1⟩⟩ : DispatchOut).eff.audits = 0 ∧
        (⟨respW, 200, stCached, ⟨false, 0, 1⟩⟩ : DispatchOut).body
          = Json.obj [("error", Json.str "upstream_unavailable")])) := by
  have h : google_assistant 100 cfgW syncReq UpstreamResult.timeout stCached = some
      ⟨respW, 200, stCached, ⟨false, 0, 1⟩⟩ := by rfl
  have h2 := claim_C7.1 100 cfgW syncReq UpstreamResult.timeout stCached
    ⟨respW, 200, stCached, ⟨false, 0, 1⟩⟩ h
  exact ⟨h, h2.1, h2.2⟩

/-- C7 counterexample: a QUERY during an upstream timeout with no cached
fallback completes with zero audit records, refuting "exactly one audit
record ... regardless of which branch was taken". -/
theorem claim_C7_counterexample :
    google_assistant 100 cfgW queryReqD2 UpstreamResult.timeout stEmpty
      = some ⟨Json.obj [("error", Json.str "upstream_unavailable")], 504, stEmpty,
          ⟨true, 0, 0⟩⟩ ∧
    (⟨Json.obj [("error", Json.str "upstream_unavailable")], 504, stEmpty,
      ⟨true, 0, 0⟩⟩ : DispatchOut).eff.audits ≠ 1 := by
  exact ⟨rfl, by decide⟩

/-- C8: state-cache entries never expire: the fallback lookup
`get_cached_states` involves no clock and returns the stored entry for
every requested cached id whatever its `updatedAt` (the markers carry
the stored value and timestamp unchanged); and across both dispatchers a
state-cache entry only ever changes when a successful upstream read
replaces it (`cache_query_states` on the Google side, an `endpointId`
insert on the Alexa side). -/
theorem claim_C8 :
    (∀ (qc : List (String × QueryEntry)) (ids : List Json)
       (states : List (String × Json)) (s : String) (c : QueryEntry)
       (fs : List (String × Json)),
      get_cached_states ids qc = some states →
      dictGet qc s = some c → c.state = Json.obj fs → Json.str s ∈ ids →
      dictGet states s = some (Json.obj (markState fs c.updated_at)) ∧
      dictGet (markState fs c.updated_at) "_cached" = some (Json.bool true) ∧
      dictGet (markState fs c.updated_at) "_cached_at"
        = some (Json.num c.updated_at) ∧
      (∀ key, key ≠ "_cached" → key ≠ "_cached_at" →
        dictGet (markState fs c.updated_at) key = dictGet fs key)) ∧
    (∀ (now : Int) (cfg : Config) (data : Json) (upstream : UpstreamResult)
       (st : ServerState) (out : DispatchOut),
      google_assistant now cfg data upstream st = some out →
      out.state.query_cache = st.query_cache ∨
      ∃ b s dv fs, upstream = UpstreamResult.json b s ∧
        extractRespDevices b = some dv ∧ dv.truthy = true ∧ dv.asObj = some fs ∧
        out.state.query_cache = cache_query_states now fs st.query_cache) ∧
    (∀ (now : Int) (cfg : Config) (userKey : String) (data : Json)
       (upstream : UpstreamResult) (st : ServerState) (out : DispatchOut),
      alexa_smart_home now cfg userKey data upstream st = some out →
      out.state.alexa_state_cache = st.alexa_state_cache ∨
      ∃ b s eid ctx props, upstream = UpstreamResult.json b s ∧
        b.pyGetD "context" (Json.obj []) = some ctx ∧
        ctx.pyGetD "properties" (Json.arr []) = some props ∧ props.truthy = true ∧
        out.state.alexa_state_cache
          = dictInsert st.alexa_state_cache eid ⟨props, now⟩) := by
  refine ⟨?_, ?_, ?_⟩
  · intro qc ids states s c fs hfold hc hobj hmem
    exact ⟨get_cached_states_mem qc ids states hfold s c fs hc hobj hmem,
      markState_cached fs c.updated_at, markState_cached_at fs c.updated_at,
      fun key h1 h2 => markState_preserves fs c.updated_at key h1 h2⟩
  · intro now cfg data upstream st out h
    rcases google_assistant_cases now cfg data upstream st out h with
      ⟨u, h⟩ | ⟨inputsJ, h⟩ | ⟨inputsJ, h⟩ | h
    · exact Or.inl (handleSync_spec now cfg.sync_cache_ttl u upstream st out h).1
    · exact (handleQuery_spec now data inputsJ upstream st out h).2.2.2.1
    · exact Or.inl (by rw [(handleExecute_spec inputsJ upstream st out h).1])
    · exact Or.inl (by rw [(handleUnknown_spec upstream st out h).1])
  · intro now cfg userKey data upstream st out h
    rcases alexa_smart_home_cases now cfg userKey data upstream st out h with
      h | ⟨directive, header, h⟩ | ⟨ns, h⟩
    · exact Or.inl
        (alexaDiscovery_spec now cfg.alexa_discovery_ttl userKey upstream st out h).2.2.1
    · exact (alexaReportState_spec now directive header upstream st out h).2.2.2.1
    · exact Or.inl (by rw [(alexaOther_spec ns upstream st out h).1])

/-- Witness for C8: the entry for `D1`, stored with `updatedAt = 10`
(arbitrarily old), is returned by the fallback lookup with its value
unchanged under the markers; the "on" key is preserved. -/
theorem claim_C8_witness :
    dictGet [("D1", Json.obj (markState [("on", Json.bool true)] 10))] "D1"
      = some (Json.obj (markState [("on", Json.bool true)] 10)) ∧
    dictGet (markState [("on", Json.bool true)] 10) "_cached"
      = some (Json.bool true) ∧
    dictGet (markState [("on", Json.bool true)] 10) "_cached_at"
      = some (Json.num 10) ∧
    dictGet (markState [("on", Json.bool true)] 10) "on"
      = dictGet [("on", Json.bool true)] "on" := by
  have h := claim_C8.1 stCached.query_cache [Json.str "D1"]
    [("D1", Json.obj (markState [("on", Json.bool true)] 10))] "D1"
    ⟨Json.obj [("on", Json.bool true)], 10⟩ [("on", Json.bool true)]
    (by decide) (by decide) rfl (by decide)
  exact ⟨h.1, h.2.1, h.2.2.1, h.2.2.2 "on" (by decide) (by decide)⟩

/-- C1 (amended): for a ReadState request the upstream is always
attempted first, in both dialects.  Google QUERY: a response with a
*truthy* JSON body has its per-device states written into the state
cache and is returned live with status 200; on timeout or connection
failure, if at least one requested id is cached, a fallback is returned
with success status whose entries carry the staleness markers over the
stored values unchanged; if none is cached, the status of the upstream
attempt is surfaced.  Alexa ReportState: a truthy response body has its
truthy `context.properties` cached under the directive's `endpointId`
and is returned live with status 200; on timeout or connection failure
with that endpoint cached, a `StateReport` fallback is returned with
success status whose `context.properties` is the stored value verbatim
— with NO staleness marker of any kind (lines 740-755), the second
deviation the counterexample forces; with no cached endpoint, the status
of the upstream attempt is surfaced.  (First forced deviation: a success
with a *falsy* body — `{}`, `null`, `0`, `""`, `[]` — is treated like a
failure by the source's truthiness test, in both dialects.) -/
theorem claim_C1 :
    (∀ (now : Int) (cfg : Config) (data : Json) (upstream : UpstreamResult)
       (st : ServerState) (inputsJ b : Json) (s : Nat) (out : DispatchOut),
      data.pyGetD "inputs" (Json.arr []) = some inputsJ →
      googleIntent inputsJ = some (Json.str "action.devices.QUERY") →
      upstream = UpstreamResult.json b s → b.truthy = true →
      google_assistant now cfg data upstream st = some out →
      out.body = b ∧ out.status = 200 ∧ out.eff.upstreamCalled = true ∧
      ∃ dv, extractRespDevices b = some dv ∧
        ((dv.truthy = true ∧ ∃ fs, dv.asObj = some fs ∧
          out.state.query_cache = cache_query_states now fs st.query_cache) ∨
         (dv.truthy = false ∧ out.state.query_cache = st.query_cache))) ∧
    (∀ (now : Int) (cfg : Config) (data : Json) (st : ServerState)
       (inputsJ : Json) (ids : List Json) (states : List (String × Json))
       (reqId : Json) (upstream : UpstreamResult),
      data.pyGetD "inputs" (Json.arr []) = some inputsJ →
      googleIntent inputsJ = some (Json.str "action.devices.QUERY") →
      (upstream = UpstreamResult.timeout ∨ upstream = UpstreamResult.connError) →
      queryDeviceIds inputsJ = some ids →
      get_cached_states ids st.query_cache = some states → states ≠ [] →
      data.pyGetD "requestId" Json.null = some reqId →
      google_assistant now cfg data upstream st
        = some ⟨Json.obj [("requestId", reqId),
            ("payload", Json.obj [("devices", Json.obj states)])],
            200, st, ⟨true, 1, 1⟩⟩ ∧
      (∀ k v, dictGet states k = some v →
        ∃ c fs, dictGet st.query_cache k = some c ∧ c.state = Json.obj fs ∧
          v = Json.obj (markState fs c.updated_at))) ∧
    (∀ (now : Int) (cfg : Config) (data : Json) (st : ServerState)
       (inputsJ : Json) (ids : List Json) (upstream : UpstreamResult),
      data.pyGetD "inputs" (Json.arr []) = some inputsJ →
      googleIntent inputsJ = some (Json.str "action.devices.QUERY") →
      (upstream = UpstreamResult.timeout ∨ upstream = UpstreamResult.connError) →
      queryDeviceIds inputsJ = some ids →
      get_cached_states ids st.query_cache = some [] →
      google_assistant now cfg data upstream st
        = some ⟨Json.obj [("error", Json.str "upstream_unavailable")],
            (proxy_to_upstream upstream).2.1, st, ⟨true, 0, 0⟩⟩) ∧
    (∀ (now : Int) (cfg : Config) (userKey : String) (data : Json)
       (upstream : UpstreamResult) (st : ServerState)
       (directive header b : Json) (s : Nat) (out : DispatchOut),
      data.pyGetD "directive" (Json.obj []) = some directive →
      directive.pyGetD "header" (Json.obj []) = some header →
      header.pyGetD "namespace" (Json.str "unknown") = some (Json.str "Alexa") →
      header.pyGetD "name" (Json.str "unknown") = some (Json.str "ReportState") →
      upstream = UpstreamResult.json b s → b.truthy = true →
      alexa_smart_home now cfg userKey data upstream st = some out →
      out.body = b ∧ out.status = 200 ∧ out.eff.upstreamCalled = true ∧
      ∃ endpoint eid ctx props,
        directive.pyGetD "endpoint" (Json.obj []) = some endpoint ∧
        endpoint.pyGetD "endpointId" (Json.str "unknown") = some eid ∧
        b.pyGetD "context" (Json.obj []) = some ctx ∧
        ctx.pyGetD "properties" (Json.arr []) = some props ∧
        ((props.truthy = true ∧ out.state.alexa_state_cache
            = dictInsert st.alexa_state_cache eid ⟨props, now⟩) ∨
         (props.truthy = false ∧
           out.state.alexa_state_cache = st.alexa_state_cache))) ∧
    (∀ (now : Int) (cfg : Config) (userKey : String) (data : Json)
       (upstream : UpstreamResult) (st : ServerState)
       (directive header endpoint eid msgId corr : Json) (c : AlexaStateEntry),
      data.pyGetD "directive" (Json.obj []) = some directive →
      directive.pyGetD "header" (Json.obj []) = some header →
      header.pyGetD "namespace" (Json.str "unknown") = some (Json.str "Alexa") →
      header.pyGetD "name" (Json.str "unknown") = some (Json.str "ReportState") →
      (upstream = UpstreamResult.timeout ∨ upstream = UpstreamResult.connError) →
      directive.pyGetD "endpoint" (Json.obj []) = some endpoint →
      endpoint.pyGetD "endpointId" (Json.str "unknown") = some eid →
      dictGet st.alexa_state_cache eid = some c →
      header.pyGetD "messageId" (Json.str "") = some msgId →
      header.pyGetD "correlationToken" (Json.str "") = some corr →
      alexa_smart_home now cfg userKey data upstream st
        = some ⟨Json.obj [("event", Json.obj
              [("header", Json.obj
                 [("namespace", Json.str "Alexa"),
                  ("name", Json.str "StateReport"),
                  ("messageId", msgId), ("correlationToken", corr),
                  ("payloadVersion", Json.str "3")]),
               ("endpoint", endpoint), ("payload", Json.obj [])]),
             ("context", Json.obj [("properties", c.properties)])],
            200, st, ⟨true, 1, 1⟩⟩) ∧
    (∀ (now : Int) (cfg : Config) (userKey : String) (data : Json)
       (upstream : UpstreamResult) (st : ServerState)
       (directive header endpoint eid : Json),
      data.pyGetD "directive" (Json.obj []) = some directive →
      directive.pyGetD "header" (Json.obj []) = some header →
      header.pyGetD "namespace" (Json.str "unknown") = some (Json.str "Alexa") →
      header.pyGetD "name" (Json.str "unknown") = some (Json.str "ReportState") →
      (upstream = UpstreamResult.timeout ∨ upstream = UpstreamResult.connError) →
      directive.pyGetD "endpoint" (Json.obj []) = some endpoint →
      endpoint.pyGetD "endpointId" (Json.str "unknown") = some eid →
      dictGet st.alexa_state_cache eid = none →
      alexa_smart_home now cfg userKey data upstream st
        = some ⟨Json.obj [("error", Json.str "upstream_unavailable")],
            (proxy_to_upstream upstream).2.1, st, ⟨true, 0, 0⟩⟩) := by
  refine ⟨?_, ?_, ?_, ?_, ?_, ?_⟩
  · intro now cfg data upstream st inputsJ b s out hin hi hup hb h
    obtain ⟨u, hu⟩ := Json.pyGetD_of_pyGetD hin "agentUserId" (Json.str "default")
    rw [google_assistant_query_route now cfg data upstream st inputsJ u hin hi hu]
      at h
    subst hup
    obtain ⟨hbody, hstat, heff, dv, hdv, hcase⟩ :=
      handleQuery_success now data inputsJ b s st out hb h
    refine ⟨hbody, hstat, by rw [heff], dv, hdv, ?_⟩
    rcases hcase with ⟨ht, fs, hfs, hst⟩ | ⟨ht, hst⟩
    · exact Or.inl ⟨ht, fs, hfs, by rw [hst]⟩
    · exact Or.inr ⟨ht, by rw [hst]⟩
  · intro now cfg data st inputsJ ids states reqId upstream hin hi herr hids hc
      hne hrid
    obtain ⟨u, hu⟩ := Json.pyGetD_of_pyGetD hin "agentUserId" (Json.str "default")
    constructor
    · rw [google_assistant_query_route now cfg data upstream st inputsJ u hin hi hu,
        handleQuery_offline_eval now data inputsJ st ids upstream hids
          (by rcases herr with h | h
              · exact Or.inl h
              · exact Or.inr (Or.inl h)),
        queryOffline_served data ids _ st states reqId hc hne hrid]
    · intro k v hkv
      exact get_cached_states_sound st.query_cache ids states hc k v hkv
  · intro now cfg data st inputsJ ids upstream hin hi herr hids hc
    obtain ⟨u, hu⟩ := Json.pyGetD_of_pyGetD hin "agentUserId" (Json.str "default")
    rw [google_assistant_query_route now cfg data upstream st inputsJ u hin hi hu,
      handleQuery_offline_eval now data inputsJ st ids upstream hids
        (by rcases herr with h | h
            · exact Or.inl h
            · exact Or.inr (Or.inl h)),
      queryOffline_unavailable data ids _ st hc]
  · intro now cfg userKey data upstream st directive header b s out hd hh hns hnm
      hup hb h
    rw [alexa_smart_home_report_route now cfg userKey data upstream st directive
      header hd hh hns hnm] at h
    subst hup
    obtain ⟨hbody, hstat, heff, endpoint, eid, ctx, props, hep, heid, hctx,
      hprops, hcase⟩ := alexaReportState_success now directive header b s st out hb h
    refine ⟨hbody, hstat, by rw [heff], endpoint, eid, ctx, props, hep, heid,
      hctx, hprops, ?_⟩
    rcases hcase with ⟨ht, hst⟩ | ⟨ht, hst⟩
    · exact Or.inl ⟨ht, by rw [hst]⟩
    · exact Or.inr ⟨ht, by rw [hst]⟩
  · intro now cfg userKey data upstream st directive header endpoint eid msgId corr
      c hd hh hns hnm herr hep heid hc hm hcorr
    rw [alexa_smart_home_report_route now cfg userKey data upstream st directive
        header hd hh hns hnm,
      alexaReportState_offline_eval now directive header endpoint eid st upstream
        hep heid
        (by rcases herr with h | h
            · exact Or.inl h
            · exact Or.inr (Or.inl h)),
      alexaOffline_served header endpoint eid _ st c msgId corr hc hm hcorr]
  · intro now cfg userKey data upstream st directive header endpoint eid
      hd hh hns hnm herr hep heid hc
    rw [alexa_smart_home_report_route now cfg userKey data upstream st directive
        header hd hh hns hnm,
      alexaReportState_offline_eval now directive header endpoint eid st upstream
        hep heid
        (by rcases herr with h | h
            · exact Or.inl h
            · exact Or.inr (Or.inl h)),
      alexaOffline_unavailable header endpoint eid _ st hc]

/-- Witness for C1: during a connection failure, the QUERY for cached
device `D1` is served from the state cache with the staleness markers
and the stored value unchanged, status 200; and the Alexa ReportState
for cached endpoint `E1` is served as a `StateReport` fallback carrying
the stored properties. -/
theorem claim_C1_witness :
    google_assistant 200 cfgW queryReqD1 UpstreamResult.connError stCached
      = some ⟨Json.obj [("requestId", Json.str "r1"),
          ("payload", Json.obj [("devices", Json.obj
            [("D1", Json.obj (markState [("on", Json.bool true)] 10))])])],
          200, stCached, ⟨true, 1, 1⟩⟩ ∧
    alexa_smart_home 200 cfgW "ukey" reportReq UpstreamResult.connError stCached
      = some ⟨Json.obj [("event", Json.obj
            [("header", Json.obj
               [("namespace", Json.str "Alexa"), ("name", Json.str "StateReport"),
                ("messageId", Json.str "m1"), ("correlationToken", Json.str "c1"),
                ("payloadVersion", Json.str "3")]),
             ("endpoint", Json.obj [("endpointId", Json.str "E1")]),
             ("payload", Json.obj [])]),
           ("context", Json.obj [("properties", Json.arr [Json.str "p"])])],
          200, stCached, ⟨true, 1, 1⟩⟩ := by
  constructor
  · exact (claim_C1.2.1 200 cfgW queryReqD1 stCached
      (Json.arr [Json.obj [("intent", Json.str "action.devices.QUERY"),
        ("payload", Json.obj [("devices",
          Json.arr [Json.obj [("id", Json.str "D1")]])])]])
      [Json.str "D1"]
      [("D1", Json.obj (markState [("on", Json.bool true)] 10))]
      (Json.str "r1") UpstreamResult.connError
      rfl rfl (Or.inr rfl) (by decide) (by decide) (by decide) rfl).1
  · exact claim_C1.2.2.2.2.1 200 cfgW "ukey" reportReq UpstreamResult.connError
      stCached
      (Json.obj [("header", Json.obj
         [("namespace", Json.str "Alexa"), ("name", Json.str "ReportState"),
          ("messageId", Json.str "m1"), ("correlationToken", Json.str "c1")]),
        ("endpoint", Json.obj [("endpointId", Json.str "E1")])])
      (Json.obj [("namespace", Json.str "Alexa"), ("name", Json.str "ReportState"),
        ("messageId", Json.str "m1"), ("correlationToken", Json.str "c1")])
      (Json.obj [("endpointId", Json.str "E1")]) (Json.str "E1")
      (Json.str "m1") (Json.str "c1") ⟨Json.arr [Json.str "p"], 10⟩
      rfl rfl rfl rfl (Or.inr rfl) rfl rfl (by decide) rfl rfl

/-- C1 counterexample, refuting the original claim at two concrete
inputs.  Google: an upstream *success* with the falsy JSON body `{}`
(status 200) is not returned live — the source's
`if not is_error and response` treats the falsy body as a failure and
falls through to the fallback path, here yielding `upstream_unavailable`.
Alexa: during a connection failure, the ReportState fallback for cached
endpoint `E1` returns the stored `properties` value verbatim — the
body's `context.properties` below is exactly the stored
`Json.arr [Json.str "p"]`, with no staleness marker of any kind added,
refuting "each returned entry carries the staleness marker". -/
theorem claim_C1_counterexample :
    (google_assistant 100 cfgW queryReqD2 (UpstreamResult.json (Json.obj []) 200)
        stEmpty
      = some ⟨Json.obj [("error", Json.str "upstream_unavailable")], 200, stEmpty,
          ⟨true, 0, 0⟩⟩ ∧
     Json.obj [("error", Json.str "upstream_unavailable")] ≠ Json.obj []) ∧
    (alexa_smart_home 200 cfgW "ukey" reportReq UpstreamResult.connError stCached
      = some ⟨Json.obj [("event", Json.obj
            [("header", Json.obj
               [("namespace", Json.str "Alexa"), ("name", Json.str "StateReport"),
                ("messageId", Json.str "m1"), ("correlationToken", Json.str "c1"),
                ("payloadVersion", Json.str "3")]),
             ("endpoint", Json.obj [("endpointId", Json.str "E1")]),
             ("payload", Json.obj [])]),
           ("context", Json.obj [("properties", Json.arr [Json.str "p"])])],
          200, stCached, ⟨true, 1, 1⟩⟩ ∧
     dictGet stCached.alexa_state_cache (Json.str "E1")
       = some ⟨Json.arr [Json.str "p"], 10⟩) := by
  exact ⟨⟨rfl, by decide⟩, rfl, rfl⟩

/-- C2 (amended): the proxy discriminates upstream outcomes only by
`proxy_to_upstream`'s `is_error` flag.  A malformed response body is
normalized exactly like an unreachable upstream (`(None, 502, True)`)
and therefore DOES trigger the offline-fallback path when a requested id
is cached — as do timeouts, connection failures and any other request
exception; while a non-2xx response carrying a truthy JSON body is not
surfaced as an upstream error at all but treated as a success.  (The
original claim — protocol failures surfaced as errors and never
triggering fallback — is refuted by the counterexample.) -/
theorem claim_C2 :
    proxy_to_upstream UpstreamResult.jsonDecodeError = (none, 502, true) ∧
    (∀ (now : Int) (cfg : Config) (data : Json) (st : ServerState)
       (inputsJ : Json) (ids : List Json) (states : List (String × Json))
       (reqId : Json) (upstream : UpstreamResult),
      data.pyGetD "inputs" (Json.arr []) = some inputsJ →
      googleIntent inputsJ = some (Json.str "action.devices.QUERY") →
      (upstream = UpstreamResult.timeout ∨ upstream = UpstreamResult.connError ∨
        upstream = UpstreamResult.jsonDecodeError ∨
        upstream = UpstreamResult.otherError) →
      queryDeviceIds inputsJ = some ids →
      get_cached_states ids st.query_cache = some states → states ≠ [] →
      data.pyGetD "requestId" Json.null = some reqId →
      google_assistant now cfg data upstream st
        = some ⟨Json.obj [("requestId", reqId),
            ("payload", Json.obj [("devices", Json.obj states)])],
            200, st, ⟨true, 1, 1⟩⟩) ∧
    (∀ (now : Int) (cfg : Config) (data : Json) (st : ServerState)
       (inputsJ b : Json) (s : Nat) (out : DispatchOut),
      data.pyGetD "inputs" (Json.arr []) = some inputsJ →
      googleIntent inputsJ = some (Json.str "action.devices.QUERY") →
      b.truthy = true →
      google_assistant now cfg data (UpstreamResult.json b s) st = some out →
      out.body = b ∧ out.status = 200) := by
  refine ⟨rfl, ?_, ?_⟩
  · intro now cfg data st inputsJ ids states reqId upstream hin hi herr hids hc
      hne hrid
    obtain ⟨u, hu⟩ := Json.pyGetD_of_pyGetD hin "agentUserId" (Json.str "default")
    rw [google_assistant_query_route now cfg data upstream st inputsJ u hin hi hu,
      handleQuery_offline_eval now data inputsJ st ids upstream hids herr,
      queryOffline_served data ids _ st states reqId hc hne hrid]
  · intro now cfg data st inputsJ b s out hin hi hb h
    obtain ⟨u, hu⟩ := Json.pyGetD_of_pyGetD hin "agentUserId" (Json.str "default")
    rw [google_assistant_query_route now cfg data
      (UpstreamResult.json b s) st inputsJ u hin hi hu] at h
    obtain ⟨hbody, hstat, _, _⟩ := handleQuery_success now data inputsJ b s st out hb h
    exact ⟨hbody, hstat⟩

/-- Witness for C2: a malformed upstream body (`JSONDecodeError`) during
a QUERY for cached `D1` is answered from the offline fallback. -/
theorem claim_C2_witness :
    google_assistant 200 cfgW queryReqD1 UpstreamResult.jsonDecodeError stCached
      = some ⟨Json.obj [("requestId", Json.str "r1"),
          ("payload", Json.obj [("devices", Json.obj
            [("D1", Json.obj (markState [("on", Json.bool true)] 10))])])],
          200, stCached, ⟨true, 1, 1⟩⟩ := by
  exact claim_C2.2.1 200 cfgW queryReqD1 stCached
    (Json.arr [Json.obj [("intent", Json.str "action.devices.QUERY"),
      ("payload", Json.obj [("devices",
        Json.arr [Json.obj [("id", Json.str "D1")]])])]])
    [Json.str "D1"]
    [("D1", Json.obj (markState [("on", Json.bool true)] 10))]
    (Json.str "r1") UpstreamResult.jsonDecodeError
    rfl rfl (Or.inr (Or.inr (Or.inl rfl))) (by decide) (by decide) (by decide) rfl

/-- C2 counterexample: a malformed upstream response body (a protocol
failure per the claim) does trigger the offline-fallback path: with `D1`
cached, the QUERY returns the marker-annotated cached state with success
status and fires the offline webhook, instead of surfacing an upstream
error. -/
theorem claim_C2_counterexample :
    google_assistant 200 cfgW queryReqD1 UpstreamResult.jsonDecodeError stCached
      = some ⟨Json.obj [("requestId", Json.str "r1"),
          ("payload", Json.obj [("devices", Json.obj
            [("D1", Json.obj [("_cached_at", Json.num 10),
              ("_cached", Json.bool true), ("on", Json.bool true)])])])],
          200, stCached, ⟨true, 1, 1⟩⟩ ∧
    Json.obj [("requestId", Json.str "r1"),
        ("payload", Json.obj [("devices", Json.obj
          [("D1", Json.obj [("_cached_at", Json.num 10),
            ("_cached", Json.bool true), ("on", Json.bool true)])])])]
      ≠ Json.obj [("error", Json.str "upstream_error")] := by
  exact ⟨rfl, by decide⟩

/-- C10 (amended): a QUERY whose upstream answers non-2xx (any status)
with a body parsing to a *truthy* JSON value is treated as a success:
the body's device states are cached and the body is returned to the
caller with HTTP 200, discarding the upstream status.  (The amendment:
a falsy JSON body — `{}`, `null`, `0`, `""`, `[]` — is instead treated
as a failure, which is what the counterexample forces.) -/
theorem claim_C10 :
    ∀ (now : Int) (cfg : Config) (data : Json) (st : ServerState)
      (inputsJ b : Json) (s : Nat) (out : DispatchOut),
      data.pyGetD "inputs" (Json.arr []) = some inputsJ →
      googleIntent inputsJ = some (Json.str "action.devices.QUERY") →
      b.truthy = true →
      google_assistant now cfg data (UpstreamResult.json b s) st = some out →
      out.body = b ∧ out.status = 200 ∧
      ∃ dv, extractRespDevices b = some dv ∧
        ((dv.truthy = true ∧ ∃ fs, dv.asObj = some fs ∧
          out.state.query_cache = cache_query_states now fs st.query_cache) ∨
         (dv.truthy = false ∧ out.state.query_cache = st.query_cache)) := by
  intro now cfg data st inputsJ b s out hin hi hb h
  obtain ⟨u, hu⟩ := Json.pyGetD_of_pyGetD hin "agentUserId" (Json.str "default")
  rw [google_assistant_query_route now cfg data
    (UpstreamResult.json b s) st inputsJ u hin hi hu] at h
  obtain ⟨hbody, hstat, _, dv, hdv, hcase⟩ :=
    handleQuery_success now data inputsJ b s st out hb h
  refine ⟨hbody, hstat, dv, hdv, ?_⟩
  rcases hcase with ⟨ht, fs, hfs, hst⟩ | ⟨ht, hst⟩
  · exact Or.inl ⟨ht, fs, hfs, by rw [hst]⟩
  · exact Or.inr ⟨ht, by rw [hst]⟩

/-- Witness for C10: an upstream 500 whose body is the truthy JSON
object `{"payload": {"devices": {"D9": {"on": false}}}}` is returned to
the caller with HTTP 200 and its device state is written to the cache. -/
theorem claim_C10_witness :
    (Json.obj [("payload", Json.obj [("devices",
      Json.obj [("D9", Json.obj [("on", Json.bool false)])])])]).truthy = true ∧
    (⟨Json.obj [("payload", Json.obj [("devices",
        Json.obj [("D9", Json.obj [("on", Json.bool false)])])])], 200,
      ⟨[], [("D9", ⟨Json.obj [("on", Json.bool false)], 100⟩)], [], []⟩,
      ⟨true, 0, 1⟩⟩ : DispatchOut).body
      = Json.obj [("payload", Json.obj [("devices",
          Json.obj [("D9", Json.obj [("on", Json.bool false)])])])] ∧
    (⟨Json.obj [("payload", Json.obj [("devices",
        Json.obj [("D9", Json.obj [("on", Json.bool false)])])])], 200,
      ⟨[], [("D9", ⟨Json.obj [("on", Json.bool false)], 100⟩)], [], []⟩,
      ⟨true, 0, 1⟩⟩ : DispatchOut).status = 200 := by
  have h2 := claim_C10 100 cfgW queryReqD2 stEmpty
    (Json.arr [Json.obj [("intent", Json.str "action.devices.QUERY"),
      ("payload", Json.obj [("devices",
        Json.arr [Json.obj [("id", Json.str "D2")]])])]])
    (Json.obj [("payload", Json.obj [("devices",
      Json.obj [("D9", Json.obj [("on", Json.bool false)])])])]) 500
    ⟨Json.obj [("payload", Json.obj [("devices",
        Json.obj [("D9", Json.obj [("on", Json.bool false)])])])], 200,
      ⟨[], [("D9", ⟨Json.obj [("on", Json.bool false)], 100⟩)], [], []⟩,
      ⟨true, 0, 1⟩⟩
    rfl rfl (by decide) rfl
  exact ⟨by decide, h2.1, h2.2.1⟩

/-- C10 counterexample: the claim as stated quantifies over every body
that parses as JSON, but a non-2xx response with the falsy JSON body
`{}` is NOT treated as success: nothing is cached and the body is not
returned with HTTP 200 — the request falls into the fallback path and
surfaces `upstream_unavailable` with the upstream's 500. -/
theorem claim_C10_counterexample :
    google_assistant 100 cfgW queryReqD2 (UpstreamResult.json (Json.obj []) 500)
        stEmpty
      = some ⟨Json.obj [("error", Json.str "upstream_unavailable")], 500, stEmpty,
          ⟨true, 0, 0⟩⟩ ∧
    (500 : Nat) ≠ 200 := by
  exact ⟨rfl, by decide⟩
